import Mathlib

/-!
Verification development for the sideline-stats ingestion and rating
pipeline.  The definitions below are shallow embeddings of the relevant
JavaScript/TypeScript source functions:

* `extractCompleteStats`, `deepCollectTeamStats`, `findTeamsMeta`,
  `parseCompleteGameData` and the `bestById` candidate selection embed the
  box-score extractor of `scripts/build_complete_stats.mjs` (the men's D2
  scripts contain byte-identical copies of these functions).
* The season aggregation (`mergeTeamSide`, `aggregateGames`), possession
  estimate (`poss`), four factors (`calcFourFactors`) and ratings
  computation embed the season aggregator and rating calculator.
* `runIncremental` embeds the incremental entry point of
  `scripts/build_ratings.mjs` (cache filtering, merge, guard, persistence).
* `JNum` models IEEE special values (NaN and the infinities) over exact
  rational arithmetic, which is what the NaN-guard claims about the
  individual offensive-rating formulas are about; binary rounding is
  intentionally idealised since no claim here depends on it.

Machine numbers are modelled as `Int`/`Rat`; JavaScript `parseInt`-style
numeric coercion is modelled for numbers and numeric strings (the only
shapes the upstream feed produces for stat fields).
-/

/-- Canonical counting statistics for one team or player in one game,
as produced by `extractCompleteStats` in `build_complete_stats.mjs`. -/
structure Stats where
  points : Int
  fgm : Int
  fga : Int
  tpm : Int
  tpa : Int
  ftm : Int
  fta : Int
  orb : Int
  drb : Int
  trb : Int
  ast : Int
  stl : Int
  blk : Int
  tov : Int
  pf : Int
  minutes : Rat
deriving DecidableEq, Repr

/-- The all-zero stat line (the default produced when every alias lookup
fails). -/
def zeroStats : Stats :=
  ⟨0, 0, 0, 0, 0, 0, 0, 0, 0, 0, 0, 0, 0, 0, 0, 0⟩

/-- The weighted plausibility score used by `bestById` in
`parseCompleteGameData` (`build_complete_stats.mjs` lines 320-335):
`points + fga + fta + 100*blk + 100*stl + 10*ast + orb + tov`. -/
def score (s : Stats) : Int :=
  s.points + s.fga + s.fta + s.blk * 100 + s.stl * 100 + s.ast * 10 + s.orb + s.tov

mutual
/-- JSON values, mutually inductive with spine types for arrays and
objects so that all traversals are structural recursions. -/
inductive Json where
| jnull : Json
| jbool : Bool → Json
| jnum : Rat → Json
| jstr : String → Json
| jarr : JsonArr → Json
| jobj : JsonObj → Json
deriving DecidableEq
inductive JsonArr where
| nil : JsonArr
| cons : Json → JsonArr → JsonArr
deriving DecidableEq
inductive JsonObj where
| nil : JsonObj
| cons : String → Json → JsonObj → JsonObj
deriving DecidableEq
end

/-- Converts a `List Json` into a `JsonArr` spine (payload-building
convenience only; not part of the source model). -/
def JsonArr.ofList : List Json → JsonArr
| [] => .nil
| x :: xs => .cons x (JsonArr.ofList xs)

/-- Converts a `JsonArr` spine back to a `List Json`. -/
def JsonArr.toList : JsonArr → List Json
| .nil => []
| .cons x xs => x :: JsonArr.toList xs

/-- Converts a list of key/value pairs to a `JsonObj` spine. -/
def JsonObj.ofList : List (String × Json) → JsonObj
| [] => .nil
| (k, v) :: fs => .cons k v (JsonObj.ofList fs)

/-- Field lookup on an object, first occurrence wins (JavaScript property
access on our object model). -/
def JsonObj.lookup : JsonObj → String → Option Json
| .nil, _ => none
| .cons k v fs, key => if k = key then some v else JsonObj.lookup fs key

/-- JavaScript `obj[k] != null`: the property exists and is not `null`. -/
def JsonObj.hasNonNull (fs : JsonObj) (key : String) : Bool :=
  match fs.lookup key with
  | some Json.jnull => false
  | some _ => true
  | none => false

/-- `pick(obj, keys)` from the source: the first key whose value is not
null/undefined, else `null`.  On non-objects every lookup is undefined. -/
def pickJ (x : Json) (keys : List String) : Option Json :=
  match x with
  | Json.jobj fs =>
    match keys with
    | [] => none
    | k :: ks =>
      match fs.lookup k with
      | some Json.jnull => pickJ (Json.jobj fs) ks
      | some v => some v
      | none => pickJ (Json.jobj fs) ks
  | _ => none

/-- Truncation toward zero, the integer part that `parseInt` keeps from a
decimal rendering of a number. -/
def jsTrunc (q : Rat) : Int :=
  if 0 ≤ q then ⌊q⌋ else ⌈q⌉

/-- Value of a run of leading decimal digits; `none` when the first
character is not a digit (mirrors `parseInt` returning `NaN`). -/
def parseLeadingDigits : List Char → Option Nat → Option Nat
| [], acc => acc
| c :: cs, acc =>
  if c.isDigit then
    parseLeadingDigits cs (some ((acc.getD 0) * 10 + (c.toNat - 48)))
  else acc

/-- `parseInt(s, 10)` on a trimmed string: optional sign then leading
digits, ignoring any trailing characters; `none` models `NaN`. -/
def parseIntJS (s : String) : Option Int :=
  match s.trim.data with
  | '-' :: cs => (parseLeadingDigits cs none).map (fun n => -(n : Int))
  | '+' :: cs => (parseLeadingDigits cs none).map (fun n => (n : Int))
  | cs => (parseLeadingDigits cs none).map (fun n => (n : Int))

/-- `toInt(x, d)` from the source: `parseInt(String(x ?? ""), 10)` with
default `d` on `NaN`.  Numbers truncate toward zero; numeric strings
parse; booleans, nulls, arrays and objects stringify to something with no
leading integer and fall back to the default. -/
def toIntJ (x : Option Json) (d : Int) : Int :=
  match x with
  | some (Json.jnum q) => jsTrunc q
  | some (Json.jstr s) => (parseIntJS s).getD d
  | _ => d

/-- `toFloat(x, d)` from the source, same fallback behaviour as `toIntJ`
but keeping the fractional part. -/
def toFloatJ (x : Option Json) (d : Rat) : Rat :=
  match x with
  | some (Json.jnum q) => q
  | some (Json.jstr s) => ((parseIntJS s).map (fun n => (n : Rat))).getD d
  | _ => d

/-- `String(x)` for the shapes that occur as team identifiers: strings
pass through, integral numbers render in decimal, booleans and null as in
JavaScript.  (Non-integral numbers and containers never occur as ids in
the feed; they are given an injective fallback rendering.) -/
def jsStringOf : Json → String
| Json.jstr s => s
| Json.jnum q => if q.den = 1 then toString q.num else toString q.num ++ "/" ++ toString q.den
| Json.jbool b => if b then "true" else "false"
| Json.jnull => "null"
| Json.jarr _ => ""
| Json.jobj _ => "[object Object]"

/-- `String(pick(...))` where a missing pick gives `String(null)`. -/
def jsStringOfOpt : Option Json → String
| some v => jsStringOf v
| none => "null"

/-- The team-identifier alias list used throughout the extractor. -/
def idKeys : List String := ["teamId", "team_id", "id"]

/-- The nested-container alias list consulted by `deepCollectTeamStats`. -/
def nestedKeys : List String := ["teamStats", "team_stats", "statistics", "stats", "totals"]

/-- `extractCompleteStats(raw)` from `build_complete_stats.mjs` lines
175-194: every canonical field is read through its ordered alias list and
coerced with a safe default of zero. -/
def extractCompleteStats (raw : Json) : Stats where
  points := toIntJ (pickJ raw ["points", "pts", "score"]) 0
  fgm := toIntJ (pickJ raw ["fieldGoalsMade", "fgm", "fgMade"]) 0
  fga := toIntJ (pickJ raw ["fieldGoalsAttempted", "fga", "fgAttempts"]) 0
  tpm := toIntJ (pickJ raw ["threePointsMade", "3pm", "threePointersMade", "threePtMade"]) 0
  tpa := toIntJ (pickJ raw ["threePointsAttempted", "3pa", "threePointersAttempted", "threePtAttempts"]) 0
  ftm := toIntJ (pickJ raw ["freeThrowsMade", "ftm", "ftMade"]) 0
  fta := toIntJ (pickJ raw ["freeThrowsAttempted", "fta", "ftAttempts"]) 0
  orb := toIntJ (pickJ raw ["offensiveRebounds", "oreb", "offReb", "orb"]) 0
  drb := toIntJ (pickJ raw ["defensiveRebounds", "dreb", "defReb", "drb"]) 0
  trb := toIntJ (pickJ raw ["totalRebounds", "treb", "rebounds", "reb", "trb"]) 0
  ast := toIntJ (pickJ raw ["assists", "ast"]) 0
  stl := toIntJ (pickJ raw ["steals", "stl"]) 0
  blk := toIntJ (pickJ raw ["blockedShots", "blocks", "blk"]) 0
  tov := toIntJ (pickJ raw ["turnovers", "tov", "to"]) 0
  pf := toIntJ (pickJ raw ["fouls", "pf", "personalFouls"]) 0
  minutes := toFloatJ (pickJ raw ["minutesPlayed", "minutes", "mins", "min"]) 0

/-- The collection filter `stats.points || stats.fga || stats.fta`
(JavaScript truthiness of the coerced integers). -/
def statsPasses (s : Stats) : Bool :=
  s.points ≠ 0 || s.fga ≠ 0 || s.fta ≠ 0

/-- The candidates contributed by one object node of the deep walk: its
own stat line plus the stat line of a nested stats container, each kept
only when the points/fga/fta filter passes. -/
def ownCandidates (fs : JsonObj) : List (String × Stats) :=
  match pickJ (Json.jobj fs) idKeys with
  | none => []
  | some idv =>
    let tid := jsStringOf idv
    let s := extractCompleteStats (Json.jobj fs)
    let own := if statsPasses s then [(tid, s)] else []
    let nested :=
      match pickJ (Json.jobj fs) nestedKeys with
      | some (Json.jobj nfs) =>
        let ns := extractCompleteStats (Json.jobj nfs)
        if statsPasses ns then [(tid, ns)] else []
      | some (Json.jarr na) =>
        let ns := extractCompleteStats (Json.jarr na)
        if statsPasses ns then [(tid, ns)] else []
      | _ => []
    own ++ nested

mutual
/-- `deepCollectTeamStats(root)` from `build_complete_stats.mjs` lines
196-224: a depth-first walk collecting every object that carries a team
identifier and a plausible stat line (own fields and nested container). -/
def deepCollectTeamStats : Json → List (String × Stats)
| Json.jarr xs => deepCollectArr xs
| Json.jobj fs => ownCandidates fs ++ deepCollectVals fs
| _ => []
/-- Walk of an array spine for `deepCollectTeamStats`. -/
def deepCollectArr : JsonArr → List (String × Stats)
| JsonArr.nil => []
| JsonArr.cons x xs => deepCollectTeamStats x ++ deepCollectArr xs
/-- Walk of the value spine of an object for `deepCollectTeamStats`. -/
def deepCollectVals : JsonObj → List (String × Stats)
| JsonObj.nil => []
| JsonObj.cons _ v fs => deepCollectTeamStats v ++ deepCollectVals fs
end

/-- JavaScript truthiness for the shapes in our JSON model. -/
def jsTruthy : Json → Bool
| Json.jnull => false
| Json.jbool b => b
| Json.jnum q => q ≠ 0
| Json.jstr s => s ≠ ""
| Json.jarr _ => true
| Json.jobj _ => true

mutual
/-- `extractPlayers(gameJson)` from `build_complete_stats.mjs` lines
226-248: collects every object exposing a non-empty `playerStats` array
together with its team identifier. -/
def extractPlayers : Json → List (String × JsonArr)
| Json.jarr xs => extractPlayersArr xs
| Json.jobj fs =>
  (match fs.lookup "playerStats" with
   | some (Json.jarr (JsonArr.cons p ps)) =>
     match pickJ (Json.jobj fs) idKeys with
     | some idv =>
       if jsTruthy idv then [(jsStringOf idv, JsonArr.cons p ps)] else []
     | none => []
   | _ => []) ++ extractPlayersVals fs
| _ => []
/-- Array spine walk for `extractPlayers`. -/
def extractPlayersArr : JsonArr → List (String × JsonArr)
| JsonArr.nil => []
| JsonArr.cons x xs => extractPlayers x ++ extractPlayersArr xs
/-- Object value spine walk for `extractPlayers`. -/
def extractPlayersVals : JsonObj → List (String × JsonArr)
| JsonObj.nil => []
| JsonObj.cons _ v fs => extractPlayers v ++ extractPlayersVals fs
end

/-- Property access `x?.k` (optional chaining, `undefined` on
non-objects). -/
def objField : Json → String → Option Json
| Json.jobj fs, k => fs.lookup k
| _, _ => none

/-- The per-element test of `findTeamsMeta`:
`t && (t.teamId != null || t.id != null)` (property access on a
non-object is undefined, so only objects qualify). -/
def teamsLike : Json → Bool
| Json.jobj fs => fs.hasNonNull "teamId" || fs.hasNonNull "id"
| _ => false

/-- The four fixed container paths scanned first by `findTeamsMeta`,
keeping those that are arrays. -/
def fixedTeamArrays (j : Json) : List (List Json) :=
  ([objField j "teams",
    (objField j "game").bind (fun g => objField g "teams"),
    (objField j "meta").bind (fun g => objField g "teams"),
    (objField j "header").bind (fun g => objField g "teams")]).filterMap
    (fun x => match x with
      | some (Json.jarr xs) => some (JsonArr.toList xs)
      | _ => none)

/-- Scan of the fixed-path candidates: the first whose filtered entries
number at least two wins. -/
def firstFixed : List (List Json) → Option (List Json)
| [] => none
| arr :: rest =>
  let filtered := arr.filter teamsLike
  if 2 ≤ filtered.length then some filtered else firstFixed rest

mutual
/-- The fallback tree walk of `findTeamsMeta`: the first array (in
depth-first order) holding at least two team-like objects. -/
def ftmWalk : Json → Option (List Json)
| Json.jarr xs =>
  let ok := (JsonArr.toList xs).filter teamsLike
  if 2 ≤ ok.length then some ok else ftmWalkArr xs
| Json.jobj fs => ftmWalkVals fs
| _ => none
/-- Array spine walk for `ftmWalk`. -/
def ftmWalkArr : JsonArr → Option (List Json)
| JsonArr.nil => none
| JsonArr.cons x xs =>
  match ftmWalk x with
  | some r => some r
  | none => ftmWalkArr xs
/-- Object value spine walk for `ftmWalk`. -/
def ftmWalkVals : JsonObj → Option (List Json)
| JsonObj.nil => none
| JsonObj.cons _ v fs =>
  match ftmWalk v with
  | some r => some r
  | none => ftmWalkVals fs
end

/-- `findTeamsMeta(gameJson)` from `build_complete_stats.mjs` lines
250-279: fixed container paths first, then the unbounded tree walk. -/
def findTeamsMeta (j : Json) : Option (List Json) :=
  match firstFixed (fixedTeamArrays j) with
  | some arr => some arr
  | none => ftmWalk j

/-- `isHomeFromMeta(t)` from the source: booleans pass through, the
strings home/h and away/a (case-insensitive) decide, anything else is
unknown. -/
def isHomeFromMeta (t : Json) : Option Bool :=
  match pickJ t ["isHome", "home", "is_home", "homeAway", "home_away"] with
  | some (Json.jbool true) => some true
  | some (Json.jbool false) => some false
  | some (Json.jstr s) =>
    let l := s.toLower
    if l = "home" || l = "h" then some true
    else if l = "away" || l = "a" then some false
    else none
  | _ => none

/-- `nameFromMeta(t)` from the source: the first present name alias,
else the placeholder `"Team"`. -/
def nameFromMeta (t : Json) : String :=
  match pickJ t ["nameShort", "name_short", "shortName", "nameFull", "name_full", "fullName", "name"] with
  | some v => jsStringOf v
  | none => "Team"

/-- The loop body of the `bestById` fold in `parseCompleteGameData`
(projected to one team identifier): keep the first candidate seen,
replace it only on a strictly greater plausibility score
(`if (!prev || score > prev.score) bestById.set(...)`). -/
def bestByIdStep (key : String) (acc : Option (Stats × Int)) (c : String × Stats) : Option (Stats × Int) :=
  if c.1 = key then
    match acc with
    | none => some (c.2, score c.2)
    | some prev => if score c.2 > prev.2 then some (c.2, score c.2) else some prev
  else acc

/-- The `bestById` selection of `parseCompleteGameData` projected to one
team identifier. -/
def selectBest (cands : List (String × Stats)) (key : String) : Option Stats :=
  (cands.foldl (bestByIdStep key) none).map Prod.fst

/-- One side of a parsed game record. -/
structure SideRec where
  teamId : String
  teamName : String
  conference : Option String
  stats : Stats
deriving DecidableEq, Repr

/-- A canonical game record as produced by extraction
(conference fields are attached afterwards from the scoreboard). -/
structure GameRec where
  gameId : String
  date : String
  home : SideRec
  away : SideRec
  isConferenceGame : Bool
  players : List (String × JsonArr)
deriving DecidableEq

/-- The home/away identifier derivation of `parseCompleteGameData`
(`build_complete_stats.mjs` lines 301-315): team metadata discovery, the
home-flag scan with positional fallback, and `String(pick(meta, ids))`. -/
def parsedIds (gameJson : Json) : Option (String × String) :=
  match findTeamsMeta gameJson with
  | none => none
  | some teamsArr =>
    if teamsArr.length < 2 then none
    else
      let homeMeta := ((teamsArr.find? (fun t => isHomeFromMeta t = some true)).getD (teamsArr.getD 0 Json.jnull))
      let awayMeta := ((teamsArr.find? (fun t => isHomeFromMeta t = some false)).getD (teamsArr.getD 1 Json.jnull))
      some (jsStringOfOpt (pickJ homeMeta idKeys), jsStringOfOpt (pickJ awayMeta idKeys))

/-- Metadata lookup used for the names in the parsed record, mirroring
the same home/away selection as `parsedIds`. -/
def parsedMetas (gameJson : Json) : Option (Json × Json) :=
  match findTeamsMeta gameJson with
  | none => none
  | some teamsArr =>
    if teamsArr.length < 2 then none
    else
      some ((teamsArr.find? (fun t => isHomeFromMeta t = some true)).getD (teamsArr.getD 0 Json.jnull),
            (teamsArr.find? (fun t => isHomeFromMeta t = some false)).getD (teamsArr.getD 1 Json.jnull))

/-- `parseCompleteGameData(gameId, gameJson, gameDate)` from
`build_complete_stats.mjs` lines 301-358 (the men's D2 scripts carry the
same function): team metadata, candidate collection, best-candidate
selection per side, and rejection when either side lacks a candidate. -/
def parseCompleteGameData (gameId : String) (gameJson : Json) (gameDate : String) : Option GameRec :=
  match parsedMetas gameJson with
  | none => none
  | some (homeMeta, awayMeta) =>
    let homeId := jsStringOfOpt (pickJ homeMeta idKeys)
    let awayId := jsStringOfOpt (pickJ awayMeta idKeys)
    let candidates := deepCollectTeamStats gameJson
    if candidates.isEmpty then none
    else
      match selectBest candidates homeId, selectBest candidates awayId with
      | some hs, some avs =>
        some { gameId := gameId, date := gameDate,
               home := ⟨homeId, nameFromMeta homeMeta, none, hs⟩,
               away := ⟨awayId, nameFromMeta awayMeta, none, avs⟩,
               isConferenceGame := false,
               players := extractPlayers gameJson }
      | _, _ => none

/-- Season totals for one team: games, wins, losses and the sum of every
box-score field for the team and its opponents. -/
structure TeamTotals where
  teamId : String
  teamName : String
  conference : Option String
  games : Int
  wins : Int
  losses : Int
  points : Int
  opp_points : Int
  fgm : Int
  fga : Int
  tpm : Int
  tpa : Int
  ftm : Int
  fta : Int
  orb : Int
  drb : Int
  trb : Int
  ast : Int
  stl : Int
  blk : Int
  tov : Int
  pf : Int
  opp_fgm : Int
  opp_fga : Int
  opp_tpm : Int
  opp_tpa : Int
  opp_ftm : Int
  opp_fta : Int
  opp_orb : Int
  opp_drb : Int
  opp_trb : Int
  opp_ast : Int
  opp_stl : Int
  opp_blk : Int
  opp_tov : Int
  opp_pf : Int
deriving DecidableEq

/-- The team-keyed season-total store (the module-level `Map`),
represented as an association list in insertion order. -/
abbrev TotalsMap : Type := List (String × TeamTotals)

/-- `Map.get` on the season-total store. -/
def findTot : TotalsMap → String → Option TeamTotals
| [], _ => none
| (k, t) :: m, key => if k = key then some t else findTot m key

/-- `Map.set` on the season-total store: replace in place, else append. -/
def setTot : TotalsMap → String → TeamTotals → TotalsMap
| [], key, t => [(key, t)]
| (k, t') :: m, key, t => if k = key then (key, t) :: m else (k, t') :: setTot m key t

/-- The zero-initialised entry created the first time a team is seen
(`build_complete_stats.mjs` lines 560-572). -/
def zeroTotals (side : SideRec) : TeamTotals where
  teamId := side.teamId
  teamName := side.teamName
  conference := side.conference
  games := 0
  wins := 0
  losses := 0
  points := 0
  opp_points := 0
  fgm := 0
  fga := 0
  tpm := 0
  tpa := 0
  ftm := 0
  fta := 0
  orb := 0
  drb := 0
  trb := 0
  ast := 0
  stl := 0
  blk := 0
  tov := 0
  pf := 0
  opp_fgm := 0
  opp_fga := 0
  opp_tpm := 0
  opp_tpa := 0
  opp_ftm := 0
  opp_fta := 0
  opp_orb := 0
  opp_drb := 0
  opp_trb := 0
  opp_ast := 0
  opp_stl := 0
  opp_blk := 0
  opp_tov := 0
  opp_pf := 0

/-- One game folded into an existing entry, full-rebuild variant
(`build_complete_stats.mjs` lines 574-597): the win is awarded only for a
strictly greater point total, defensive rebounds are derived as
`max 0 (trb - orb)` on both sides. -/
def bumpComplete (cur : TeamTotals) (ts : Stats) (opp : Stats) : TeamTotals where
  teamId := cur.teamId
  teamName := cur.teamName
  conference := cur.conference
  games := cur.games + 1
  wins := if ts.points > opp.points then cur.wins + 1 else cur.wins
  losses := if ts.points > opp.points then cur.losses else cur.losses + 1
  points := cur.points + ts.points
  opp_points := cur.opp_points + opp.points
  fgm := cur.fgm + ts.fgm
  fga := cur.fga + ts.fga
  tpm := cur.tpm + ts.tpm
  tpa := cur.tpa + ts.tpa
  ftm := cur.ftm + ts.ftm
  fta := cur.fta + ts.fta
  orb := cur.orb + ts.orb
  drb := cur.drb + max 0 (ts.trb - ts.orb)
  trb := cur.trb + ts.trb
  ast := cur.ast + ts.ast
  stl := cur.stl + ts.stl
  blk := cur.blk + ts.blk
  tov := cur.tov + ts.tov
  pf := cur.pf + ts.pf
  opp_fgm := cur.opp_fgm + opp.fgm
  opp_fga := cur.opp_fga + opp.fga
  opp_tpm := cur.opp_tpm + opp.tpm
  opp_tpa := cur.opp_tpa + opp.tpa
  opp_ftm := cur.opp_ftm + opp.ftm
  opp_fta := cur.opp_fta + opp.fta
  opp_orb := cur.opp_orb + opp.orb
  opp_drb := cur.opp_drb + max 0 (opp.trb - opp.orb)
  opp_trb := cur.opp_trb + opp.trb
  opp_ast := cur.opp_ast + opp.ast
  opp_stl := cur.opp_stl + opp.stl
  opp_blk := cur.opp_blk + opp.blk
  opp_tov := cur.opp_tov + opp.tov
  opp_pf := cur.opp_pf + opp.pf

/-- One side of one game merged into the store, full-rebuild variant:
create the zeroed entry when absent, then increment. -/
def mergeTeamSideComplete (m : TotalsMap) (side : SideRec) (opp : Stats) : TotalsMap :=
  let cur := (findTot m side.teamId).getD (zeroTotals side)
  setTot m side.teamId (bumpComplete cur side.stats opp)

/-- Both sides of one game merged, full-rebuild variant
(`build_complete_stats.mjs` lines 557-597). -/
def mergeGameComplete (m : TotalsMap) (g : GameRec) : TotalsMap :=
  mergeTeamSideComplete (mergeTeamSideComplete m g.home g.away.stats) g.away g.home.stats

/-- The season aggregation over a list of parsed games, full-rebuild
variant. -/
def aggregateGames (gs : List GameRec) : TotalsMap :=
  gs.foldl mergeGameComplete []

/-- The aggregation as run by `main`: games whose extraction returned
`null` are skipped and contribute nothing. -/
def aggregateExtracted (inputs : List (String × Json × String)) : TotalsMap :=
  aggregateGames (inputs.filterMap (fun i => parseCompleteGameData i.1 i.2.1 i.2.2))

/-- Incremental-variant entry creation (`build_ratings.mjs` lines
486-505): the first game initialises every field directly (defensive
rebounds taken from the extracted `drb` field). -/
def initTotalsRatings (side : SideRec) (opp : Stats) : TeamTotals where
  teamId := side.teamId
  teamName := side.teamName
  conference := side.conference
  games := 1
  wins := if side.stats.points > opp.points then 1 else 0
  losses := if side.stats.points > opp.points then 0 else 1
  points := side.stats.points
  opp_points := opp.points
  fgm := side.stats.fgm
  fga := side.stats.fga
  tpm := side.stats.tpm
  tpa := side.stats.tpa
  ftm := side.stats.ftm
  fta := side.stats.fta
  orb := side.stats.orb
  drb := side.stats.drb
  trb := side.stats.trb
  ast := side.stats.ast
  stl := side.stats.stl
  blk := side.stats.blk
  tov := side.stats.tov
  pf := side.stats.pf
  opp_fgm := opp.fgm
  opp_fga := opp.fga
  opp_tpm := opp.tpm
  opp_tpa := opp.tpa
  opp_ftm := opp.ftm
  opp_fta := opp.fta
  opp_orb := opp.orb
  opp_drb := opp.drb
  opp_trb := opp.trb
  opp_ast := opp.ast
  opp_stl := opp.stl
  opp_blk := opp.blk
  opp_tov := opp.tov
  opp_pf := opp.pf

/-- Incremental-variant increment (`build_ratings.mjs` lines 506-522). -/
def bumpRatings (cur : TeamTotals) (ts : Stats) (opp : Stats) : TeamTotals where
  teamId := cur.teamId
  teamName := cur.teamName
  conference := cur.conference
  games := cur.games + 1
  wins := if ts.points > opp.points then cur.wins + 1 else cur.wins
  losses := if ts.points > opp.points then cur.losses else cur.losses + 1
  points := cur.points + ts.points
  opp_points := cur.opp_points + opp.points
  fgm := cur.fgm + ts.fgm
  fga := cur.fga + ts.fga
  tpm := cur.tpm + ts.tpm
  tpa := cur.tpa + ts.tpa
  ftm := cur.ftm + ts.ftm
  fta := cur.fta + ts.fta
  orb := cur.orb + ts.orb
  drb := cur.drb + ts.drb
  trb := cur.trb + ts.trb
  ast := cur.ast + ts.ast
  stl := cur.stl + ts.stl
  blk := cur.blk + ts.blk
  tov := cur.tov + ts.tov
  pf := cur.pf + ts.pf
  opp_fgm := cur.opp_fgm + opp.fgm
  opp_fga := cur.opp_fga + opp.fga
  opp_tpm := cur.opp_tpm + opp.tpm
  opp_tpa := cur.opp_tpa + opp.tpa
  opp_ftm := cur.opp_ftm + opp.ftm
  opp_fta := cur.opp_fta + opp.fta
  opp_orb := cur.opp_orb + opp.orb
  opp_drb := cur.opp_drb + opp.drb
  opp_trb := cur.opp_trb + opp.trb
  opp_ast := cur.opp_ast + opp.ast
  opp_stl := cur.opp_stl + opp.stl
  opp_blk := cur.opp_blk + opp.blk
  opp_tov := cur.opp_tov + opp.tov
  opp_pf := cur.opp_pf + opp.pf

/-- One side of one game merged, incremental variant. -/
def updateTeamSeason (m : TotalsMap) (side : SideRec) (opp : Stats) : TotalsMap :=
  match findTot m side.teamId with
  | none => setTot m side.teamId (initTotalsRatings side opp)
  | some cur => setTot m side.teamId (bumpRatings cur side.stats opp)

/-- Both sides of one game merged, incremental variant
(`build_ratings.mjs` lines 482-523). -/
def mergeGameRatings (m : TotalsMap) (g : GameRec) : TotalsMap :=
  updateTeamSeason (updateTeamSeason m g.home g.away.stats) g.away g.home.stats

/-- The known men's D2 conference set of `build_mens_d2_complete.mjs`. -/
def mensD2Conferences : List String :=
  ["cacc", "ciaa", "conference-carolinas", "ecc", "gliac", "glvc",
   "g-mac", "gac", "gulf-south", "lone-star", "mec",
   "ne10", "nsic", "peach-belt", "psac", "rmac",
   "sac", "siac", "sunshine-state",
   "mid-america-intercollegiate", "pacwest", "ccaa", "great-northwest",
   "dii-independent"]

/-- `isD2Conference(conf)` from `build_mens_d2_complete.mjs`. -/
def isD2Conference : Option String → Bool
| some c => mensD2Conferences.contains c.toLower
| none => false

/-- One side of one game merged in the men's D2 full rebuild
(`build_mens_d2_complete.mjs` lines 559-599): a side whose conference is
not in the known D2 set is skipped entirely. -/
def mergeTeamSideD2 (m : TotalsMap) (side : SideRec) (opp : Stats) : TotalsMap :=
  if isD2Conference side.conference then
    let cur := (findTot m side.teamId).getD (zeroTotals side)
    setTot m side.teamId (bumpComplete cur side.stats opp)
  else m

/-- Both sides of one game merged, men's D2 variant. -/
def mergeGameD2 (m : TotalsMap) (g : GameRec) : TotalsMap :=
  mergeTeamSideD2 (mergeTeamSideD2 m g.home g.away.stats) g.away g.home.stats

/-- The men's D2 season aggregation over the kept games. -/
def aggregateD2 (gs : List GameRec) : TotalsMap :=
  gs.foldl mergeGameD2 []

/-- The game-ID cache written by the men's D2 full rebuild
(`build_mens_d2_complete.mjs` lines 698-709): the ids of all successfully
parsed and kept games. -/
def cacheIdsOf (gs : List GameRec) : List String :=
  gs.map (fun g => g.gameId)

/-- `poss(fga, orb, tov, fta)` from `build_complete_stats.mjs` lines
162-164: `Math.max(1, fga - orb + tov + 0.475 * fta)`, the possession
estimate used (inline) by every ratings computation in the repository. -/
def poss (fga orb tov fta : Rat) : Rat :=
  max 1 (fga - orb + tov + 0.475 * fta)

/-- One side (offense or defense) of the four-factor table computed by
`calcFourFactors` in the women's D1 team page. -/
structure FourFactorsSide where
  efg : Rat
  tov : Rat
  orb : Rat
  ftr : Rat
  two : Rat
  three : Rat
  ft : Rat
  threePaRate : Rat
  blk : Rat
  stl : Rat
  ast : Rat
deriving DecidableEq

/-- The `off`/`def` pair returned by `calcFourFactors` (the source key
`def` is a reserved word here and is embedded as `defn`). -/
structure FourFactors where
  off : FourFactorsSide
  defn : FourFactorsSide
deriving DecidableEq

/-- `calcFourFactors(stats)` from the women's D1 team page (unnamed
source file, lines 89-122): every ratio is guarded, returning 0 when its
denominator is not positive. -/
def calcFourFactors (stats : TeamTotals) : FourFactors :=
  let possQ : Rat := max 1 ((stats.fga : Rat) - (stats.orb : Rat) + (stats.tov : Rat) + 0.475 * (stats.fta : Rat))
  let oppPossQ : Rat := max 1 ((stats.opp_fga : Rat) - (stats.opp_orb : Rat) + (stats.opp_tov : Rat) + 0.475 * (stats.opp_fta : Rat))
  let drbQ : Rat := (stats.trb : Rat) - (stats.orb : Rat)
  let oppDrbQ : Rat := (stats.opp_trb : Rat) - (stats.opp_orb : Rat)
  { off :=
    { efg := if (stats.fga : Rat) > 0 then (((stats.fgm : Rat) + 0.5 * (stats.tpm : Rat)) / (stats.fga : Rat)) * 100 else 0
      tov := if possQ > 0 then ((stats.tov : Rat) / possQ) * 100 else 0
      orb := if (stats.orb : Rat) + oppDrbQ > 0 then ((stats.orb : Rat) / ((stats.orb : Rat) + oppDrbQ)) * 100 else 0
      ftr := if (stats.fga : Rat) > 0 then ((stats.fta : Rat) / (stats.fga : Rat)) * 100 else 0
      two := if (stats.fga : Rat) - (stats.tpa : Rat) > 0 then (((stats.fgm : Rat) - (stats.tpm : Rat)) / ((stats.fga : Rat) - (stats.tpa : Rat))) * 100 else 0
      three := if (stats.tpa : Rat) > 0 then ((stats.tpm : Rat) / (stats.tpa : Rat)) * 100 else 0
      ft := if (stats.fta : Rat) > 0 then ((stats.ftm : Rat) / (stats.fta : Rat)) * 100 else 0
      threePaRate := if (stats.fga : Rat) > 0 then ((stats.tpa : Rat) / (stats.fga : Rat)) * 100 else 0
      blk := if (stats.fga : Rat) - (stats.tpa : Rat) > 0 then ((stats.opp_blk : Rat) / ((stats.fga : Rat) - (stats.tpa : Rat))) * 100 else 0
      stl := if possQ > 0 then ((stats.opp_stl : Rat) / possQ) * 100 else 0
      ast := if (stats.fgm : Rat) > 0 then ((stats.ast : Rat) / (stats.fgm : Rat)) * 100 else 0 }
    defn :=
    { efg := if (stats.opp_fga : Rat) > 0 then (((stats.opp_fgm : Rat) + 0.5 * (stats.opp_tpm : Rat)) / (stats.opp_fga : Rat)) * 100 else 0
      tov := if oppPossQ > 0 then ((stats.opp_tov : Rat) / oppPossQ) * 100 else 0
      orb := if (stats.opp_orb : Rat) + drbQ > 0 then ((stats.opp_orb : Rat) / ((stats.opp_orb : Rat) + drbQ)) * 100 else 0
      ftr := if (stats.opp_fga : Rat) > 0 then ((stats.opp_fta : Rat) / (stats.opp_fga : Rat)) * 100 else 0
      two := if (stats.opp_fga : Rat) - (stats.opp_tpa : Rat) > 0 then (((stats.opp_fgm : Rat) - (stats.opp_tpm : Rat)) / ((stats.opp_fga : Rat) - (stats.opp_tpa : Rat))) * 100 else 0
      three := if (stats.opp_tpa : Rat) > 0 then ((stats.opp_tpm : Rat) / (stats.opp_tpa : Rat)) * 100 else 0
      ft := if (stats.opp_fta : Rat) > 0 then ((stats.opp_ftm : Rat) / (stats.opp_fta : Rat)) * 100 else 0
      threePaRate := if (stats.opp_fga : Rat) > 0 then ((stats.opp_tpa : Rat) / (stats.opp_fga : Rat)) * 100 else 0
      blk := if (stats.opp_fga : Rat) - (stats.opp_tpa : Rat) > 0 then ((stats.blk : Rat) / ((stats.opp_fga : Rat) - (stats.opp_tpa : Rat))) * 100 else 0
      stl := if oppPossQ > 0 then ((stats.stl : Rat) / oppPossQ) * 100 else 0
      ast := if (stats.opp_fgm : Rat) > 0 then ((stats.opp_ast : Rat) / (stats.opp_fgm : Rat)) * 100 else 0 } }

/-- A derived ratings row `{teamId, team, conference, games, adjO, adjD,
adjEM, adjT}`. -/
structure RatingsRow where
  teamId : String
  team : String
  conference : Option String
  games : Int
  adjO : Rat
  adjD : Rat
  adjEM : Rat
  adjT : Rat
deriving DecidableEq

/-- The ratings computation of `build_ratings.mjs` lines 640-648: raw
per-100-possession efficiencies and tempo from the season totals, with
possessions floored at 1. -/
def ratingsRowOf (teamId : String) (stats : TeamTotals) : RatingsRow :=
  let offPoss : Rat := max 1 ((stats.fga : Rat) - (stats.orb : Rat) + (stats.tov : Rat) + 0.475 * (stats.fta : Rat))
  let defPoss : Rat := max 1 ((stats.opp_fga : Rat) - (stats.opp_orb : Rat) + (stats.opp_tov : Rat) + 0.475 * (stats.opp_fta : Rat))
  let adjO := ((stats.points : Rat) / offPoss) * 100
  let adjD := ((stats.opp_points : Rat) / defPoss) * 100
  { teamId := teamId, team := stats.teamName, conference := stats.conference,
    games := stats.games, adjO := adjO, adjD := adjD, adjEM := adjO - adjD,
    adjT := offPoss / max 1 (stats.games : Rat) }

/-- Ratings rows recomputed in full from the season-total store. -/
def computeRatingsRows (m : TotalsMap) : List RatingsRow :=
  m.map (fun p => ratingsRowOf p.1 p.2)

/-- Stable insertion of one row into a list sorted by descending
`adjEM`. -/
def insertRowByAdjEM (r : RatingsRow) : List RatingsRow → List RatingsRow
| [] => [r]
| x :: xs => if x.adjEM < r.adjEM then r :: x :: xs else x :: insertRowByAdjEM r xs

/-- The `ratingsRows.sort((a, b) => b.adjEM - a.adjEM)` step. -/
def sortRowsByAdjEM (rows : List RatingsRow) : List RatingsRow :=
  rows.foldr insertRowByAdjEM []

/-- The D1 conference allow-list of `build_ratings.mjs` lines 629-637. -/
def d1Conferences : List String :=
  ["acc", "big-12", "big-ten", "sec", "pac-12", "big-east",
   "american", "aac", "wcc", "mwc", "mountain-west", "atlantic-10", "a-10",
   "mvc", "mac", "cusa", "sun-belt", "sunbelt", "colonial", "caa",
   "horizon", "maac", "ovc", "patriot", "southland", "summit-league",
   "wac", "big-sky", "big-south", "southern", "socon",
   "big-west", "ivy-league", "meac", "nec", "northeast", "swac",
   "asun", "america-east", "americaeast"]

/-- The D1 row filter of `build_ratings.mjs` lines 651-654 (a missing or
empty conference is falsy and excluded). -/
def d1Filter (rows : List RatingsRow) : List RatingsRow :=
  rows.filter (fun r =>
    match r.conference with
    | none => false
    | some c => c ≠ "" && d1Conferences.contains c.toLower.trim)

/-- The persisted state the incremental pipeline reads and writes: the
game-ID cache, the team season totals and the committed ratings rows. -/
structure IncState where
  cache : List String
  totals : TotalsMap
  ratings : List RatingsRow
deriving DecidableEq

/-- The observable outcome of one incremental run. -/
structure IncResult where
  newIds : List String
  processed : List String
  st : IncState
  wrote : Bool
deriving DecidableEq

/-- First-occurrence deduplication with an accumulator of already-seen
ids: the semantics of `[...new Set([...existing, ...newlyParsed])]` in
`saveKnownGameIds`. -/
def dedupAux : List String → List String → List String
| _, [] => []
| seen, x :: xs =>
  match seen.contains x with
  | true => dedupAux seen xs
  | false => x :: dedupAux (x :: seen) xs

/-- `[...new Set(l)]`. -/
def listDedup (l : List String) : List String := dedupAux [] l

/-- The incremental pipeline of `build_ratings.mjs` `main`: cached ids
are filtered out of the discovered set before any boxscore fetch (line
418); with no new ids the run exits without touching anything (lines
422-426); otherwise the successfully fetched-and-parsed games are merged
into the totals, the recomputed D1 rows must number at least
`MIN_TEAMS_REQUIRED = 300` or the run throws before any JSON write, and
on success the totals, rows and the extended id cache are committed
(lines 696-723). -/
def runIncremental (st : IncState) (discovered : List String)
    (fp : String → Option GameRec) : IncResult :=
  let newIds := discovered.filter (fun gid => !(st.cache.contains gid))
  if newIds.isEmpty then
    { newIds := newIds, processed := [], st := st, wrote := false }
  else
    let parsed := newIds.filterMap (fun gid => (fp gid).map (fun g => (gid, g)))
    let totals := (parsed.map Prod.snd).foldl mergeGameRatings st.totals
    let processed := parsed.map Prod.fst
    let d1Rows := d1Filter (sortRowsByAdjEM (computeRatingsRows totals))
    if d1Rows.length < 300 then
      { newIds := newIds, processed := processed, st := st, wrote := false }
    else
      { newIds := newIds, processed := processed,
        st := { cache := listDedup (st.cache ++ processed), totals := totals, ratings := d1Rows },
        wrote := true }

/-- The persistence actions `main` can perform against previously
persisted state. -/
inductive PersistEffect where
| dbInsertGames : PersistEffect
| dbInsertPlayerGames : PersistEffect
| dbUpsertPlayers : PersistEffect
| dbUpsertTeams : PersistEffect
| writeRatingsJson : PersistEffect
| writeTeamStatsJson : PersistEffect
| writePlayerStatsJson : PersistEffect
| writeGamesCache : PersistEffect
deriving DecidableEq, Repr

/-- The ordered persistence trace of `build_ratings.mjs` `main` as a
function of whether a database is configured and of the computed D1 row
count: database game inserts, player-game inserts and player season-total
upserts happen at lines 595-626, before the `MIN_TEAMS_REQUIRED = 300`
guard at line 656; the guard throws, skipping the team upserts and every
JSON write including the cache (lines 660-723).  The boolean is the
success flag (the process exits non-zero when it is false). -/
def buildRatingsCommit (dbEnabled : Bool) (d1RowsLen : Nat) : List PersistEffect × Bool :=
  let pre := if dbEnabled then
    [PersistEffect.dbInsertGames, PersistEffect.dbInsertPlayerGames, PersistEffect.dbUpsertPlayers]
    else []
  if d1RowsLen < 300 then (pre, false)
  else (pre ++ (if dbEnabled then [PersistEffect.dbUpsertTeams] else [])
            ++ [PersistEffect.writeRatingsJson, PersistEffect.writeTeamStatsJson,
                PersistEffect.writePlayerStatsJson, PersistEffect.writeGamesCache], true)

/-- The ordered persistence trace of `build_mens_d2_ratings.mjs` `main`:
there even the database team upserts (lines 606-631) precede the
`MIN_TEAMS_REQUIRED = 200` guard at line 654, which protects only the
JSON writes and the cache. -/
def mensD2RatingsCommit (dbEnabled : Bool) (rowsLen : Nat) : List PersistEffect × Bool :=
  let pre := if dbEnabled then
    [PersistEffect.dbInsertGames, PersistEffect.dbInsertPlayerGames,
     PersistEffect.dbUpsertPlayers, PersistEffect.dbUpsertTeams]
    else []
  if rowsLen < 200 then (pre, false)
  else (pre ++ [PersistEffect.writeRatingsJson, PersistEffect.writeTeamStatsJson,
                PersistEffect.writePlayerStatsJson, PersistEffect.writeGamesCache], true)

/-- The observable outcome of one HTTP attempt. -/
inductive FetchOutcome where
| ok : FetchOutcome
| httpStatus : Nat → FetchOutcome
| netTimeout : FetchOutcome
| connReset : FetchOutcome
| otherError : FetchOutcome
deriving DecidableEq, Repr

/-- What the retry loop does after one attempt. -/
inductive AttemptDecision where
| success : AttemptDecision
| retryAfter : Nat → AttemptDecision
| failNow : AttemptDecision
deriving DecidableEq, Repr

/-- The per-attempt decision of `fetchJson` in
`build_complete_stats.mjs` lines 39-98 (identical in
`build_mens_d2_complete.mjs`): 502/428 retry on a 2000ms-step schedule,
the other transient statuses 429/500/503/504 on a 400ms step, timeouts
and connection resets on a 500ms step; any other HTTP status throws and
the catch block rethrows it at once. -/
def completeStatsDecide (attempt : Nat) (o : FetchOutcome) : AttemptDecision :=
  match o with
  | FetchOutcome.ok => AttemptDecision.success
  | FetchOutcome.httpStatus c =>
    if (c = 502 ∨ c = 428) ∧ attempt < 3 then AttemptDecision.retryAfter (2000 * (attempt + 1))
    else if (c = 429 ∨ c = 500 ∨ c = 502 ∨ c = 503 ∨ c = 504) ∧ attempt < 3 then
      AttemptDecision.retryAfter (400 * (attempt + 1))
    else AttemptDecision.failNow
  | FetchOutcome.netTimeout =>
    if attempt < 3 then AttemptDecision.retryAfter (500 * (attempt + 1)) else AttemptDecision.failNow
  | FetchOutcome.connReset =>
    if attempt < 3 then AttemptDecision.retryAfter (500 * (attempt + 1)) else AttemptDecision.failNow
  | FetchOutcome.otherError => AttemptDecision.failNow

/-- The per-attempt decision of `fetchJson` in `build_ratings.mjs` lines
46-86 (identical in `build_mens_d2_ratings.mjs`): only 428/502 have a
dedicated retry branch, but the surrounding catch block retries EVERY
thrown error, including the `Fetch failed <status>` error raised for any
other HTTP status, as long as attempts remain. -/
def buildRatingsDecide (attempt : Nat) (o : FetchOutcome) : AttemptDecision :=
  match o with
  | FetchOutcome.ok => AttemptDecision.success
  | FetchOutcome.httpStatus c =>
    if (c = 428 ∨ c = 502) ∧ attempt < 3 then AttemptDecision.retryAfter (2000 * (attempt + 1))
    else if attempt < 3 then AttemptDecision.retryAfter (500 * (attempt + 1))
    else AttemptDecision.failNow
  | _ =>
    if attempt < 3 then AttemptDecision.retryAfter (500 * (attempt + 1)) else AttemptDecision.failNow

/-- The retry loop `for (attempt = 0; attempt <= REQUEST_RETRIES; ...)`
driven by a decision function and the sequence of attempt outcomes;
returns success, the number of attempts made and the backoff delays
slept between attempts. -/
def runFetchAux (decideF : Nat → FetchOutcome → AttemptDecision)
    (outcomes : Nat → FetchOutcome) : Nat → Nat → Bool × Nat × List Nat
| 0, _ => (false, 0, [])
| fuel + 1, attempt =>
  match decideF attempt (outcomes attempt) with
  | AttemptDecision.success => (true, 1, [])
  | AttemptDecision.failNow => (false, 1, [])
  | AttemptDecision.retryAfter d =>
    let r := runFetchAux decideF outcomes fuel (attempt + 1)
    (r.1, r.2.1 + 1, d :: r.2.2)

/-- A full run of the retry loop (`REQUEST_RETRIES = 3`, so at most four
attempts). -/
def runFetch (decideF : Nat → FetchOutcome → AttemptDecision)
    (outcomes : Nat → FetchOutcome) : Bool × Nat × List Nat :=
  runFetchAux decideF outcomes 4 0

/-- A JavaScript `number` restricted to the values the ORtg formulas can
produce from integer-and-fraction inputs: an exact rational, the two
infinities, or NaN.  Binary rounding is idealised; NaN/Infinity
propagation, which is what the guard claims are about, is exact. -/
inductive JNum where
| nan : JNum
| pinf : JNum
| ninf : JNum
| fin : Rat → JNum
deriving DecidableEq, Repr

/-- Injection of a rational constant. -/
def jq (q : Rat) : JNum := JNum.fin q

/-- JavaScript unary minus. -/
def jneg : JNum → JNum
| JNum.nan => JNum.nan
| JNum.pinf => JNum.ninf
| JNum.ninf => JNum.pinf
| JNum.fin q => JNum.fin (-q)

/-- JavaScript addition. -/
def jadd : JNum → JNum → JNum
| JNum.nan, _ => JNum.nan
| _, JNum.nan => JNum.nan
| JNum.pinf, JNum.ninf => JNum.nan
| JNum.pinf, _ => JNum.pinf
| JNum.ninf, JNum.pinf => JNum.nan
| JNum.ninf, _ => JNum.ninf
| JNum.fin _, JNum.pinf => JNum.pinf
| JNum.fin _, JNum.ninf => JNum.ninf
| JNum.fin a, JNum.fin b => JNum.fin (a + b)

/-- JavaScript multiplication (`0 * Infinity` is NaN). -/
def jmul : JNum → JNum → JNum
| JNum.nan, _ => JNum.nan
| _, JNum.nan => JNum.nan
| JNum.pinf, JNum.pinf => JNum.pinf
| JNum.pinf, JNum.ninf => JNum.ninf
| JNum.ninf, JNum.pinf => JNum.ninf
| JNum.ninf, JNum.ninf => JNum.pinf
| JNum.pinf, JNum.fin q => if q = 0 then JNum.nan else if 0 < q then JNum.pinf else JNum.ninf
| JNum.fin q, JNum.pinf => if q = 0 then JNum.nan else if 0 < q then JNum.pinf else JNum.ninf
| JNum.ninf, JNum.fin q => if q = 0 then JNum.nan else if 0 < q then JNum.ninf else JNum.pinf
| JNum.fin q, JNum.ninf => if q = 0 then JNum.nan else if 0 < q then JNum.ninf else JNum.pinf
| JNum.fin a, JNum.fin b => JNum.fin (a * b)

/-- JavaScript division (`0/0` is NaN, `x/0` the signed infinity for
nonzero finite `x`, `x/Infinity` zero). -/
def jdiv : JNum → JNum → JNum
| JNum.nan, _ => JNum.nan
| _, JNum.nan => JNum.nan
| JNum.pinf, JNum.pinf => JNum.nan
| JNum.pinf, JNum.ninf => JNum.nan
| JNum.ninf, JNum.pinf => JNum.nan
| JNum.ninf, JNum.ninf => JNum.nan
| JNum.pinf, JNum.fin q => if 0 ≤ q then JNum.pinf else JNum.ninf
| JNum.ninf, JNum.fin q => if 0 ≤ q then JNum.ninf else JNum.pinf
| JNum.fin _, JNum.pinf => JNum.fin 0
| JNum.fin _, JNum.ninf => JNum.fin 0
| JNum.fin a, JNum.fin b =>
  if b = 0 then (if a = 0 then JNum.nan else if 0 < a then JNum.pinf else JNum.ninf)
  else JNum.fin (a / b)

/-- JavaScript subtraction. -/
def jsub (a b : JNum) : JNum := jadd a (jneg b)

instance : Add JNum := ⟨jadd⟩

instance : Sub JNum := ⟨jsub⟩

instance : Mul JNum := ⟨jmul⟩

instance : Div JNum := ⟨jdiv⟩

instance : Neg JNum := ⟨jneg⟩

/-- `Math.pow(x, 2)` (equal to `x * x` on every `JNum`). -/
def jsq (x : JNum) : JNum := jmul x x

/-- JavaScript `>` (false whenever NaN is involved). -/
def jgt : JNum → JNum → Bool
| JNum.nan, _ => false
| _, JNum.nan => false
| JNum.pinf, JNum.pinf => false
| JNum.pinf, _ => true
| JNum.ninf, _ => false
| JNum.fin _, JNum.pinf => false
| JNum.fin _, JNum.ninf => true
| JNum.fin a, JNum.fin b => b < a

/-- `Math.max` of two numbers (NaN-propagating). -/
def jmaxJ : JNum → JNum → JNum
| JNum.nan, _ => JNum.nan
| _, JNum.nan => JNum.nan
| JNum.pinf, _ => JNum.pinf
| _, JNum.pinf => JNum.pinf
| JNum.ninf, x => x
| x, JNum.ninf => x
| JNum.fin a, JNum.fin b => JNum.fin (max a b)

/-- A player row as consumed by the page-level stat calculators (already
numerically coerced, so plain rationals). -/
structure PlayerLine where
  minutes : Rat
  fgm : Rat
  fga : Rat
  tpm : Rat
  tpa : Rat
  ftm : Rat
  fta : Rat
  orb : Rat
  drb : Rat
  ast : Rat
  stl : Rat
  blk : Rat
  tov : Rat
  pf : Rat
  points : Rat
deriving DecidableEq

/-- A team season row as consumed by the page-level stat calculators. -/
structure TeamLine where
  games : Rat
  fga : Rat
  fgm : Rat
  tpm : Rat
  tpa : Rat
  orb : Rat
  tov : Rat
  fta : Rat
  ftm : Rat
  ast : Rat
  points : Rat
  trb : Rat
  opp_fga : Rat
  opp_tpa : Rat
  opp_tpm : Rat
  opp_orb : Rat
  opp_tov : Rat
  opp_fta : Rat
  opp_ftm : Rat
  opp_points : Rat
  opp_trb : Rat
deriving DecidableEq

namespace WD1Oliver

/-- `teamMinutes = team.games * 200`. -/
def teamMinutes (team : TeamLine) : JNum := jq team.games * jq 200

/-- `Team_ORB_pct = team.orb / (team.orb + (team.opp_trb - team.opp_orb))`
(unguarded, `src/app/players/page.tsx` line 120). -/
def teamORBpct (team : TeamLine) : JNum :=
  jq team.orb / (jq team.orb + (jq team.opp_trb - jq team.opp_orb))

/-- `Team_Scoring_Poss` (unguarded division by `team.fta`, line 121). -/
def teamScoringPoss (team : TeamLine) : JNum :=
  jq team.fgm + (jq 1 - jsq (jq 1 - jq team.ftm / jq team.fta)) * jq team.fta * jq 0.4

/-- `Team_Play_pct` (line 123). -/
def teamPlayPct (team : TeamLine) : JNum :=
  teamScoringPoss team / (jq team.fga + jq team.fta * jq 0.4 + jq team.tov)

/-- `Team_ORB_Weight` (line 125). -/
def teamORBWeight (team : TeamLine) : JNum :=
  ((jq 1 - teamORBpct team) * teamPlayPct team) /
    ((jq 1 - teamORBpct team) * teamPlayPct team + teamORBpct team * (jq 1 - teamPlayPct team))

/-- `qAST` (lines 187-191; the second denominator
`team.fgm/teamMinutes * minutes * 5 - fgm` is unguarded). -/
def qAST (team : TeamLine) (p : PlayerLine) : JNum :=
  ((jq p.minutes / (teamMinutes team / jq 5)) *
    (jq 1.14 * ((jq team.ast - jq p.ast) / jq team.fgm))) +
  ((((jq team.ast / teamMinutes team) * jq p.minutes * jq 5 - jq p.ast) /
      ((jq team.fgm / teamMinutes team) * jq p.minutes * jq 5 - jq p.fgm)) *
    (jq 1 - jq p.minutes / (teamMinutes team / jq 5)))

/-- `FG_Part` (line 194; the division by `2 * p.fga` is unguarded). -/
def fgPart (team : TeamLine) (p : PlayerLine) : JNum :=
  jq p.fgm * (jq 1 - jq 0.5 * ((jq p.points - jq p.ftm) / (jq 2 * jq p.fga)) * qAST team p)

/-- `AST_Part` (lines 195-196; division by `2 * (team.fga - p.fga)`
unguarded). -/
def astPart (team : TeamLine) (p : PlayerLine) : JNum :=
  jq 0.5 * (((jq team.points - jq team.ftm) - (jq p.points - jq p.ftm)) /
    (jq 2 * (jq team.fga - jq p.fga))) * jq p.ast

/-- `FT_Part = (1 - (1 - ftm/fta)^2) * 0.4 * fta` (line 197; the division
by `p.fta` is unguarded, so a player with no free-throw attempts makes
the whole sub-term NaN). -/
def ftPart (p : PlayerLine) : JNum :=
  (jq 1 - jsq (jq 1 - jq p.ftm / jq p.fta)) * jq 0.4 * jq p.fta

/-- `ORB_Part_sc` (line 198). -/
def orbPartSc (team : TeamLine) (p : PlayerLine) : JNum :=
  jq p.orb * teamORBWeight team * teamPlayPct team

/-- `ScPoss` (lines 200-201). -/
def scPoss (team : TeamLine) (p : PlayerLine) : JNum :=
  (fgPart team p + astPart team p + ftPart p) *
    (jq 1 - (jq team.orb / teamScoringPoss team) * teamORBWeight team * teamPlayPct team) +
    orbPartSc team p

/-- `FGxPoss` (line 204). -/
def fgxPoss (team : TeamLine) (p : PlayerLine) : JNum :=
  (jq p.fga - jq p.fgm) * (jq 1 - jq 1.07 * teamORBpct team)

/-- `FTxPoss` (line 205; unguarded `p.fta` again). -/
def ftxPoss (p : PlayerLine) : JNum :=
  jsq (jq 1 - jq p.ftm / jq p.fta) * jq 0.4 * jq p.fta

/-- `TotPoss` (line 208). -/
def totPoss (team : TeamLine) (p : PlayerLine) : JNum :=
  scPoss team p + fgxPoss team p + ftxPoss p + jq p.tov

/-- `PProd_FG_Part` (lines 211-212). -/
def pprodFG (team : TeamLine) (p : PlayerLine) : JNum :=
  jq 2 * (jq p.fgm + jq 0.5 * jq p.tpm) *
    (jq 1 - jq 0.5 * ((jq p.points - jq p.ftm) / (jq 2 * jq p.fga)) * qAST team p)

/-- `PProd_AST_Part` (lines 213-215). -/
def pprodAST (team : TeamLine) (p : PlayerLine) : JNum :=
  jq 2 * ((jq team.fgm - jq p.fgm + jq 0.5 * (jq team.tpm - jq p.tpm)) / (jq team.fgm - jq p.fgm)) *
    jq 0.5 * (((jq team.points - jq team.ftm) - (jq p.points - jq p.ftm)) /
      (jq 2 * (jq team.fga - jq p.fga))) * jq p.ast

/-- `PProd_ORB_Part` (lines 216-218). -/
def pprodORB (team : TeamLine) (p : PlayerLine) : JNum :=
  jq p.orb * teamORBWeight team * teamPlayPct team *
    (jq team.points / (jq team.fgm + (jq 1 - jsq (jq 1 - jq team.ftm / jq team.fta)) * jq 0.4 * jq team.fta))

/-- `PProd` (lines 220-221). -/
def pprod (team : TeamLine) (p : PlayerLine) : JNum :=
  (pprodFG team p + pprodAST team p + jq p.ftm) *
    (jq 1 - (jq team.orb / teamScoringPoss team) * teamORBWeight team * teamPlayPct team) +
    pprodORB team p

/-- `ortg = TotPoss > 0 ? 100 * PProd / TotPoss : 0` (line 223).  This is
the value the women's D1 players page renders unconditionally with
`toFixed(1)` (line 397), and also the body of the guarded branch of the
women's D1 team page (unnamed source, lines 455-489). -/
def ortgCore (team : TeamLine) (p : PlayerLine) : JNum :=
  if jgt (totPoss team p) (jq 0) then jq 100 * pprod team p / totPoss team p else jq 0

end WD1Oliver

/-- The individual offensive rating of the women's D1 players page
(`src/app/players/page.tsx` lines 185-223): the Dean Oliver chain with no
denominator guards. -/
def ortgPlayersPage (team : TeamLine) (p : PlayerLine) : JNum :=
  WD1Oliver.ortgCore team p

/-- The individual offensive rating of the women's D1 team page (unnamed
source file, lines 454-489): the same chain, but entered only when the
player has field-goal attempts, free-throw attempts and minutes; the
rating stays `0` otherwise and the page renders `0` as the unavailable
marker (`stats.ortg > 0 ? stats.ortg.toFixed(1) : "—"`, line 543). -/
def ortgTeamPage (team : TeamLine) (p : PlayerLine) : JNum :=
  if p.fga > 0 ∧ p.fta > 0 ∧ p.minutes > 0 then WD1Oliver.ortgCore team p else jq 0

/-- The rendering rule of the women's D1 team page, line 543: the rating
is displayed as a number exactly when it is strictly positive. -/
def ortgTeamPageShown (o : JNum) : Bool := jgt o (jq 0)

/-- `Math.max(1, x)` as used by every guard of the men's D2 ORtg. -/
def jmax1 (x : JNum) : JNum := jmaxJ (jq 1) x

namespace MD2Team

/-- `teamMinutes = team.games * 200` (men's D2 team page, line 401). -/
def teamMinutes (team : TeamLine) : JNum := jq team.games * jq 200

/-- `opp_drb = team.opp_trb - team.opp_orb` (line 403). -/
def oppDrb (team : TeamLine) : JNum := jq team.opp_trb - jq team.opp_orb

/-- `teamFTPct` (line 426, guarded). -/
def teamFTPct (team : TeamLine) : JNum :=
  if team.fta > 0 then jq team.ftm / jq team.fta else jq 0

/-- `playerPoss = pg.fga + 0.44 * pg.fta + pg.tov` (line 433). -/
def playerPoss (p : PlayerLine) : JNum := jq p.fga + jq 0.44 * jq p.fta + jq p.tov

/-- `qAST` (lines 468-470; the denominator is `Math.max(1, team.fgm -
pg.fgm)` and the minutes division sits under a positivity guard). -/
def qAST (team : TeamLine) (p : PlayerLine) : JNum :=
  if p.minutes > 0 then
    (jq p.ast / jq p.minutes) * (teamMinutes team / jq 5) / jmax1 (jq team.fgm - jq p.fgm) * jq 100
  else jq 0

/-- `fgPart` (lines 472-474, guarded by `pg.fgm > 0` and
`Math.max(1, 2 * pg.fga)`). -/
def fgPart (team : TeamLine) (p : PlayerLine) : JNum :=
  if p.fgm > 0 then
    jq p.fgm * (jq 1 - jq 0.5 * ((jq p.points - jq p.ftm) / jmax1 (jq 2 * jq p.fga)) * qAST team p)
  else jq 0

/-- `ftPart` (line 477; the free-throw ratio is guarded by
`pg.fta > 0`). -/
def ftPart (p : PlayerLine) : JNum :=
  (jq 1 - jsq (jq 1 - (if p.fta > 0 then jq p.ftm / jq p.fta else jq 0))) * jq 0.4 * jq p.fta

/-- `teamScoringPoss` (lines 480-481, guarded by `Math.max(1, 2 *
team.fga)`). -/
def teamScoringPoss (team : TeamLine) : JNum :=
  jq team.fgm * (jq 1 - jq 0.5 * ((jq team.points - jq team.ftm) / jmax1 (jq 2 * jq team.fga)) * jq 0) +
    (jq 1 - jsq (jq 1 - teamFTPct team)) * jq 0.4 * jq team.fta

/-- `orbWeight` (line 484, guarded by `Math.max(1, playerPoss)`). -/
def orbWeight (team : TeamLine) (p : PlayerLine) : JNum :=
  (jq 1 - jq 0.5 * (fgPart team p + ftPart p) / jmax1 (playerPoss p)) * jq 0.5

/-- `orbPart` (line 485). -/
def orbPart (team : TeamLine) (p : PlayerLine) : JNum := jq p.orb * orbWeight team p

/-- `scoringPoss` (line 488). -/
def scoringPoss (team : TeamLine) (p : PlayerLine) : JNum :=
  fgPart team p + ftPart p + orbPart team p

/-- `ppFG` (lines 492-494, guarded). -/
def ppFG (team : TeamLine) (p : PlayerLine) : JNum :=
  if p.fgm > 0 then (jq 2 + jq p.tpm / jmax1 (jq p.fgm)) * fgPart team p else jq 0

/-- `ppAST` (lines 497-499, guarded). -/
def ppAST (team : TeamLine) (p : PlayerLine) : JNum :=
  if p.ast > 0 then
    (jq 2 * jq team.fgm + jq team.tpm) / jmax1 (jq 2 * jq team.fgm) * jq p.ast * jq 0.5
  else jq 0

/-- `ppORB` (line 505, guarded by `Math.max(1, teamScoringPoss)`). -/
def ppORB (team : TeamLine) (p : PlayerLine) : JNum :=
  jq p.orb * orbWeight team p * (jq team.points / jmax1 (teamScoringPoss team))

/-- `pointsProduced` (line 507). -/
def pointsProduced (team : TeamLine) (p : PlayerLine) : JNum :=
  ppFG team p + ppAST team p + jq p.ftm + ppORB team p

/-- `fgxPoss` (line 510, guarded by `Math.max(1, team.orb + opp_drb)`). -/
def fgxPoss (team : TeamLine) (p : PlayerLine) : JNum :=
  (jq p.fga - jq p.fgm) * (jq 1 - jq 1.07 * (jq team.orb / jmax1 (jq team.orb + oppDrb team)))

/-- `ftxPoss` (line 511, guarded by `pg.fta > 0`). -/
def ftxPoss (p : PlayerLine) : JNum :=
  jsq (jq 1 - (if p.fta > 0 then jq p.ftm / jq p.fta else jq 0)) * jq 0.4 * jq p.fta

/-- `indivPoss` (line 512). -/
def indivPoss (team : TeamLine) (p : PlayerLine) : JNum :=
  fgxPoss team p + ftxPoss p + jq p.tov + scoringPoss team p

/-- `ortg = indivPoss > 0 ? (pointsProduced / indivPoss) * 100 : 0`
(line 515), rendered numerically with `toFixed(1)` (line 570). -/
def ortg (team : TeamLine) (p : PlayerLine) : JNum :=
  if jgt (indivPoss team p) (jq 0) then (pointsProduced team p / indivPoss team p) * jq 100
  else jq 0

end MD2Team

/-- C4: for every stat line, possessions are computed as
`max(1, FGA - ORB + TOV + 0.475 * FTA)`; on the all-zero input the
estimate is exactly 1, and for every input it is at least 1, hence never
0 or negative. -/
theorem possession_floor :
    poss 0 0 0 0 = 1 ∧ ∀ fga orb tov fta : Rat,
      1 ≤ poss fga orb tov fta ∧ 0 < poss fga orb tov fta := by
  constructor
  · norm_num [poss]
  · intro fga orb tov fta
    have h : (1 : Rat) ≤ poss fga orb tov fta := le_max_left _ _
    exact ⟨h, lt_of_lt_of_le one_pos h⟩

/-- C9 counterexample: the incremental `fetchJson` of `build_ratings.mjs`
(and `build_mens_d2_ratings.mjs`) retries a plain 404 — a status the
claim calls non-transient and says "fails immediately with no further
attempts" — three more times through its catch-all error branch, using
four attempts in all with 500/1000/1500 ms backoff before failing. -/
theorem retry_policy_cex :
    runFetch buildRatingsDecide (fun _ => FetchOutcome.httpStatus 404)
      = (false, 4, [500, 1000, 1500]) := by decide

/-- C9 as amended: in the full-rebuild `fetchJson`
(`build_complete_stats.mjs`/`build_mens_d2_complete.mjs`) exactly the
transient statuses 429/500/502/503/504 plus the vendor 428 and network
timeouts/resets are retried, with linearly increasing backoff up to the
four-attempt ceiling, and every other HTTP status fails on the first
attempt; in the incremental `fetchJson` (`build_ratings.mjs`,
`build_mens_d2_ratings.mjs`) the catch block retries every error —
non-transient HTTP statuses included — up to the same ceiling. -/
theorem retry_policy_amended :
    (∀ c : Nat, c ∉ [428, 429, 500, 502, 503, 504] →
      runFetch completeStatsDecide (fun _ => FetchOutcome.httpStatus c) = (false, 1, [])) ∧
    runFetch completeStatsDecide (fun _ => FetchOutcome.httpStatus 429) = (false, 4, [400, 800, 1200]) ∧
    runFetch completeStatsDecide (fun _ => FetchOutcome.httpStatus 500) = (false, 4, [400, 800, 1200]) ∧
    runFetch completeStatsDecide (fun _ => FetchOutcome.httpStatus 503) = (false, 4, [400, 800, 1200]) ∧
    runFetch completeStatsDecide (fun _ => FetchOutcome.httpStatus 504) = (false, 4, [400, 800, 1200]) ∧
    runFetch completeStatsDecide (fun _ => FetchOutcome.httpStatus 502) = (false, 4, [2000, 4000, 6000]) ∧
    runFetch completeStatsDecide (fun _ => FetchOutcome.httpStatus 428) = (false, 4, [2000, 4000, 6000]) ∧
    runFetch completeStatsDecide (fun _ => FetchOutcome.netTimeout) = (false, 4, [500, 1000, 1500]) ∧
    runFetch completeStatsDecide (fun _ => FetchOutcome.connReset) = (false, 4, [500, 1000, 1500]) ∧
    runFetch completeStatsDecide (fun _ => FetchOutcome.ok) = (true, 1, []) ∧
    (∀ c : Nat, (runFetch buildRatingsDecide (fun _ => FetchOutcome.httpStatus c)).2.1 = 4) := by
  refine ⟨?_, by decide, by decide, by decide, by decide, by decide, by decide,
    by decide, by decide, by decide, ?_⟩
  · intro c hc
    simp only [List.mem_cons, List.not_mem_nil, or_false, not_or] at hc
    obtain ⟨h428, h429, h500, h502, h503, h504⟩ := hc
    simp [runFetch, runFetchAux, completeStatsDecide, h428, h429, h500, h502, h503, h504]
  · intro c
    by_cases hc : c = 428 ∨ c = 502
    · simp [runFetch, runFetchAux, buildRatingsDecide, hc]
    · simp [runFetch, runFetchAux, buildRatingsDecide, hc]

/-- C9 amended witness: at the concrete non-transient status 404, the
full-rebuild policy fails on the first attempt with no retry. -/
theorem retry_policy_amended_witness :
    runFetch completeStatsDecide (fun _ => FetchOutcome.httpStatus 404) = (false, 1, []) :=
  retry_policy_amended.1 404 (by decide)

/-- C2 counterexample: with a database configured and only 5 D1 rows
(floor 300), the run does fail, but previously persisted state has
already been mutated before the guard: game rows, player-game rows and
player season totals were written to the database at
`build_ratings.mjs` lines 595-626, ahead of the guard at line 656.  So
"all previously persisted state (ratings, season totals, cache) is left
untouched" is false: the persisted player season totals were upserted. -/
theorem guard_rejection_cex :
    (buildRatingsCommit true 5).2 = false ∧
    PersistEffect.dbUpsertPlayers ∈ (buildRatingsCommit true 5).1 ∧
    PersistEffect.dbInsertGames ∈ (buildRatingsCommit true 5).1 ∧
    PersistEffect.dbInsertPlayerGames ∈ (buildRatingsCommit true 5).1 := by
  decide

/-- C2 as amended: when the computed row count is below the configured
floor (300 for women's D1, 200 for men's D2) the run fails with an error
and a failure exit code, and the guard protects the JSON-persisted
ratings, team stats, player stats, the game-ID cache, and (for women's
D1) the database team-rating upserts — but database game inserts,
player-game inserts and player season-total upserts (plus, for men's D2,
the database team upserts) have already been performed before the guard
when a database is configured. -/
theorem guard_rejection_amended :
    (∀ (db : Bool) (n : Nat), n < 300 →
      (buildRatingsCommit db n).2 = false ∧
      PersistEffect.writeRatingsJson ∉ (buildRatingsCommit db n).1 ∧
      PersistEffect.writeTeamStatsJson ∉ (buildRatingsCommit db n).1 ∧
      PersistEffect.writePlayerStatsJson ∉ (buildRatingsCommit db n).1 ∧
      PersistEffect.writeGamesCache ∉ (buildRatingsCommit db n).1 ∧
      PersistEffect.dbUpsertTeams ∉ (buildRatingsCommit db n).1 ∧
      (db = true → (buildRatingsCommit db n).1 =
        [PersistEffect.dbInsertGames, PersistEffect.dbInsertPlayerGames,
         PersistEffect.dbUpsertPlayers]) ∧
      (db = false → (buildRatingsCommit db n).1 = [])) ∧
    (∀ (db : Bool) (n : Nat), n < 200 →
      (mensD2RatingsCommit db n).2 = false ∧
      PersistEffect.writeRatingsJson ∉ (mensD2RatingsCommit db n).1 ∧
      PersistEffect.writeTeamStatsJson ∉ (mensD2RatingsCommit db n).1 ∧
      PersistEffect.writePlayerStatsJson ∉ (mensD2RatingsCommit db n).1 ∧
      PersistEffect.writeGamesCache ∉ (mensD2RatingsCommit db n).1 ∧
      (db = true → (mensD2RatingsCommit db n).1 =
        [PersistEffect.dbInsertGames, PersistEffect.dbInsertPlayerGames,
         PersistEffect.dbUpsertPlayers, PersistEffect.dbUpsertTeams]) ∧
      (db = false → (mensD2RatingsCommit db n).1 = [])) := by
  constructor
  · intro db n hn
    cases db <;> simp [buildRatingsCommit, hn]
  · intro db n hn
    cases db <;> simp [mensD2RatingsCommit, hn]

/-- C2 amended witness: the women's D1 run with a database and 5 rows
fails and ran exactly the three pre-guard database writes. -/
theorem guard_rejection_amended_witness :
    (buildRatingsCommit true 5).2 = false ∧
    (buildRatingsCommit true 5).1 =
      [PersistEffect.dbInsertGames, PersistEffect.dbInsertPlayerGames,
       PersistEffect.dbUpsertPlayers] := by
  have h := guard_rejection_amended.1 true 5 (by decide)
  exact ⟨h.1, h.2.2.2.2.2.2.1 rfl⟩

/-- The wins/losses bookkeeping invariant: every entry of the store has
`wins + losses = games`. -/
def wlInv (m : TotalsMap) : Prop :=
  ∀ p ∈ m, p.2.wins + p.2.losses = p.2.games

/-- A found entry is a member of the store. -/
theorem findTot_mem {m : TotalsMap} {k : String} {t : TeamTotals}
    (h : findTot m k = some t) : (k, t) ∈ m := by
  induction m with
  | nil => simp [findTot] at h
  | cons p m ih =>
    obtain ⟨k', t'⟩ := p
    by_cases hk : k' = k
    · subst hk
      simp [findTot] at h
      subst h
      exact List.mem_cons_self _ _
    · simp [findTot, hk] at h
      exact List.mem_cons_of_mem _ (ih h)

/-- Members of the store after a `set` are the new pair or old
members. -/
theorem mem_setTot {m : TotalsMap} {k : String} {t : TeamTotals} {x : String × TeamTotals}
    (h : x ∈ setTot m k t) : x = (k, t) ∨ x ∈ m := by
  induction m with
  | nil => simpa [setTot] using h
  | cons p m ih =>
    obtain ⟨k', t'⟩ := p
    by_cases hk : k' = k
    · subst hk
      simp [setTot] at h
      rcases h with h | h
      · exact Or.inl h
      · exact Or.inr (List.mem_cons_of_mem _ h)
    · simp [setTot, hk] at h
      rcases h with h | h
      · exact Or.inr (by simp [h])
      · rcases ih h with h' | h'
        · exact Or.inl h'
        · exact Or.inr (List.mem_cons_of_mem _ h')

/-- The full-rebuild increment adds one game and exactly one of a win or
a loss. -/
theorem bumpComplete_wl (cur : TeamTotals) (ts opp : Stats) :
    (bumpComplete cur ts opp).wins + (bumpComplete cur ts opp).losses = cur.wins + cur.losses + 1 ∧
    (bumpComplete cur ts opp).games = cur.games + 1 := by
  unfold bumpComplete
  split <;> simp <;> ring

/-- The incremental increment adds one game and exactly one of a win or
a loss. -/
theorem bumpRatings_wl (cur : TeamTotals) (ts opp : Stats) :
    (bumpRatings cur ts opp).wins + (bumpRatings cur ts opp).losses = cur.wins + cur.losses + 1 ∧
    (bumpRatings cur ts opp).games = cur.games + 1 := by
  unfold bumpRatings
  split <;> simp <;> ring

/-- `wlInv` is preserved by one full-rebuild side merge. -/
theorem wlInv_mergeTeamSideComplete {m : TotalsMap} (side : SideRec) (opp : Stats)
    (h : wlInv m) : wlInv (mergeTeamSideComplete m side opp) := by
  intro x hx
  unfold mergeTeamSideComplete at hx
  rcases mem_setTot hx with rfl | hxm
  · have hcur : ((findTot m side.teamId).getD (zeroTotals side)).wins +
        ((findTot m side.teamId).getD (zeroTotals side)).losses =
        ((findTot m side.teamId).getD (zeroTotals side)).games := by
      cases heq : findTot m side.teamId with
      | none => simp [zeroTotals]
      | some t => simpa using h _ (findTot_mem heq)
    have hb := bumpComplete_wl ((findTot m side.teamId).getD (zeroTotals side)) side.stats opp
    simp only []
    rw [hb.1, hb.2, hcur]
  · exact h _ hxm

/-- `wlInv` is preserved by one incremental side merge. -/
theorem wlInv_updateTeamSeason {m : TotalsMap} (side : SideRec) (opp : Stats)
    (h : wlInv m) : wlInv (updateTeamSeason m side opp) := by
  intro x hx
  unfold updateTeamSeason at hx
  cases heq : findTot m side.teamId with
  | none =>
    rw [heq] at hx
    rcases mem_setTot hx with rfl | hxm
    · unfold initTotalsRatings
      split <;> simp
    · exact h _ hxm
  | some cur =>
    rw [heq] at hx
    rcases mem_setTot hx with rfl | hxm
    · have hb := bumpRatings_wl cur side.stats opp
      simp only []
      rw [hb.1, hb.2, h _ (findTot_mem heq)]
    · exact h _ hxm

/-- C10: every TeamSeasonTotals entry satisfies `wins + losses = games`
after every merge (both the full-rebuild and the incremental variant
preserve the invariant, which holds of the empty store), and a game
whose two point totals are equal is counted as a loss — only a strictly
greater point total increments wins. -/
theorem wins_losses_invariant :
    (∀ (m : TotalsMap) (g : GameRec), wlInv m → wlInv (mergeGameComplete m g)) ∧
    (∀ (m : TotalsMap) (g : GameRec), wlInv m → wlInv (mergeGameRatings m g)) ∧
    wlInv [] ∧
    (∀ (cur : TeamTotals) (ts opp : Stats), ts.points = opp.points →
      (bumpComplete cur ts opp).wins = cur.wins ∧
      (bumpComplete cur ts opp).losses = cur.losses + 1 ∧
      (bumpRatings cur ts opp).wins = cur.wins ∧
      (bumpRatings cur ts opp).losses = cur.losses + 1) ∧
    (∀ (side : SideRec) (opp : Stats), side.stats.points = opp.points →
      (initTotalsRatings side opp).wins = 0 ∧ (initTotalsRatings side opp).losses = 1) := by
  refine ⟨?_, ?_, ?_, ?_, ?_⟩
  · intro m g h
    exact wlInv_mergeTeamSideComplete _ _ (wlInv_mergeTeamSideComplete _ _ h)
  · intro m g h
    exact wlInv_updateTeamSeason _ _ (wlInv_updateTeamSeason _ _ h)
  · intro p hp
    simp at hp
  · intro cur ts opp hp
    have hlt : ¬ ts.points > opp.points := by omega
    constructor
    · simp [bumpComplete, hlt]
    constructor
    · simp [bumpComplete, hlt]
    constructor
    · simp [bumpRatings, hlt]
    · simp [bumpRatings, hlt]
  · intro side opp hp
    have hlt : ¬ side.stats.points > opp.points := by omega
    exact ⟨by simp [initTotalsRatings, hlt], by simp [initTotalsRatings, hlt]⟩

/-- C10 witness: a concrete tied game merged into the empty store
satisfies the invariant and is recorded as a loss for both sides. -/
theorem wins_losses_invariant_witness :
    wlInv (mergeGameComplete []
      { gameId := "w1", date := "2026-01-01",
        home := ⟨"h", "H", none, { zeroStats with points := 60, fga := 50 }⟩,
        away := ⟨"a", "A", none, { zeroStats with points := 60, fga := 48 }⟩,
        isConferenceGame := false, players := [] }) ∧
    (bumpComplete (zeroTotals ⟨"h", "H", none, zeroStats⟩)
        { zeroStats with points := 60 } { zeroStats with points := 60 }).losses = 1 := by
  constructor
  · exact wins_losses_invariant.1 [] _ (wins_losses_invariant.2.2.1)
  · exact ((wins_losses_invariant.2.2.2.1 _ { zeroStats with points := 60 }
      { zeroStats with points := 60 } rfl).2.1).trans (by simp [zeroTotals])

/-- The score-free form of the selection step: keep the incumbent unless
the newcomer scores strictly higher. -/
def bestStep (acc : Option Stats) (s : Stats) : Option Stats :=
  match acc with
  | none => some s
  | some b => if score s > score b then some s else some b

/-- `bestOf` is the per-key selection over an already-filtered candidate
list. -/
def bestOf (l : List Stats) : Option Stats :=
  l.foldl bestStep none

/-- One step of the `bestById` fold corresponds to one `bestStep` on the
filtered list (through pairing each kept candidate with its score). -/
theorem bestByIdStep_pair (key : String) (a : Option Stats) (c : String × Stats) :
    bestByIdStep key (a.map (fun b => (b, score b))) c
      = ((if c.1 = key then bestStep a c.2 else a).map (fun b => (b, score b))) := by
  by_cases hk : c.1 = key
  · cases a with
    | none => simp [bestByIdStep, bestStep, hk]
    | some b =>
      by_cases hgt : score c.2 > score b
      · simp [bestByIdStep, bestStep, hk, hgt]
      · simp [bestByIdStep, bestStep, hk, hgt]
  · simp [bestByIdStep, hk]

/-- The `bestById` selection equals `bestOf` of the candidates filtered
to the key. -/
theorem selectBest_eq_bestOf (cands : List (String × Stats)) (key : String) :
    selectBest cands key = bestOf ((cands.filter (fun c => c.1 = key)).map Prod.snd) := by
  have main : ∀ (cs : List (String × Stats)) (a : Option Stats),
      cs.foldl (bestByIdStep key) (a.map (fun b => (b, score b)))
        = (((cs.filter (fun c => c.1 = key)).map Prod.snd).foldl bestStep a).map
            (fun b => (b, score b)) := by
    intro cs
    induction cs with
    | nil => intro a; simp
    | cons c cs ih =>
      intro a
      rw [List.foldl_cons, bestByIdStep_pair]
      by_cases hk : c.1 = key
      · rw [if_pos hk, ih (bestStep a c.2)]
        simp [List.filter_cons, hk]
      · rw [if_neg hk, ih a]
        simp [List.filter_cons, hk]
  have h0 := main cands none
  rw [show (Option.map (fun b => (b, score b)) (none : Option Stats)) = (none : Option (Stats × Int)) from rfl] at h0
  unfold selectBest bestOf
  rw [h0]
  cases (((cands.filter (fun c => c.1 = key)).map Prod.snd).foldl bestStep none) with
  | none => rfl
  | some b => rfl

/-- Whatever `bestStep`-folding selects scores at least as high as every
list element and as the seed. -/
theorem bestOf_le : ∀ (l : List Stats) (a : Option Stats) (b : Stats),
    l.foldl bestStep a = some b →
    (∀ s ∈ l, score s ≤ score b) ∧ (∀ a0, a = some a0 → score a0 ≤ score b) := by
  intro l
  induction l with
  | nil =>
    intro a b h
    refine ⟨by simp, ?_⟩
    intro a0 ha
    subst ha
    simp at h
    simp [h]
  | cons s l ih =>
    intro a b h
    rw [List.foldl_cons] at h
    obtain ⟨hl, hseed⟩ := ih (bestStep a s) b h
    have hs : score s ≤ score b := by
      cases a with
      | none => exact hseed s rfl
      | some a0 =>
        by_cases hgt : score s > score a0
        · exact hseed s (by simp [bestStep, hgt])
        · exact le_trans (not_lt.mp hgt) (hseed a0 (by simp [bestStep, hgt]))
    refine ⟨?_, ?_⟩
    · intro x hx
      rcases List.mem_cons.mp hx with rfl | hx
      · exact hs
      · exact hl x hx
    · intro a0 ha
      subst ha
      cases hb : bestStep (some a0) s with
      | none => simp [bestStep] at hb; split at hb <;> simp_all
      | some t =>
        have ht := hseed t hb
        by_cases hgt : score s > score a0
        · have hts : s = t := by simpa [bestStep, hgt] using hb
          rw [← hts] at ht
          exact le_trans (le_of_lt hgt) ht
        · have hts : a0 = t := by simpa [bestStep, hgt] using hb
          rw [← hts] at ht
          exact ht

/-- C5: the `bestById` candidate selection picks, for each teamId, a
candidate maximizing the weighted plausibility score
`points + fga + fta + 100*blk + 100*stl + 10*ast + orb + tov`; in
particular, both the all-zero stat line scores 0 and a payload whose
candidates for a teamId are a lower-scoring decoy and a populated line
(in either order) selects the populated line. -/
theorem candidate_selection :
    (∀ (payload : Json) (key : String) (b : Stats),
      selectBest (deepCollectTeamStats payload) key = some b →
      ∀ c ∈ deepCollectTeamStats payload, c.1 = key → score c.2 ≤ score b) ∧
    (∀ (payload : Json) (key : String) (d p : Stats),
      (((deepCollectTeamStats payload).filter (fun c => c.1 = key)).map Prod.snd = [d, p] ∨
       ((deepCollectTeamStats payload).filter (fun c => c.1 = key)).map Prod.snd = [p, d]) →
      score d < score p →
      selectBest (deepCollectTeamStats payload) key = some p) ∧
    score zeroStats = 0 := by
  refine ⟨?_, ?_, by decide⟩
  · intro payload key b hsel c hc hkey
    rw [selectBest_eq_bestOf] at hsel
    refine (bestOf_le _ none b hsel).1 c.2 ?_
    exact List.mem_map.mpr ⟨c, List.mem_filter.mpr ⟨hc, by simp [hkey]⟩, rfl⟩
  · intro payload key d p hshape hlt
    rw [selectBest_eq_bestOf]
    rcases hshape with h | h
    · rw [h]
      simp [bestOf, bestStep, hlt]
    · rw [h]
      simp [bestOf, bestStep, not_lt.mpr (le_of_lt hlt)]

/-- A mostly-zero decoy stat object for teamId 42 (only a points
fragment), as the upstream duplicates partial figures. -/
def c5DecoyObj : Json :=
  Json.jobj (JsonObj.ofList [("teamId", Json.jstr "42"), ("points", Json.jnum 2)])

/-- The populated true stat line for teamId 42. -/
def c5PopObj : Json :=
  Json.jobj (JsonObj.ofList
    [("teamId", Json.jstr "42"), ("points", Json.jnum 71),
     ("fieldGoalsMade", Json.jnum 25), ("fieldGoalsAttempted", Json.jnum 60),
     ("freeThrowsAttempted", Json.jnum 20), ("assists", Json.jnum 15),
     ("steals", Json.jnum 7), ("blockedShots", Json.jnum 3),
     ("offensiveRebounds", Json.jnum 10), ("turnovers", Json.jnum 12)])

/-- A payload carrying both the decoy and the populated line for the
same teamId. -/
def c5Payload : Json :=
  Json.jobj (JsonObj.ofList [("data", Json.jarr (JsonArr.ofList [c5DecoyObj, c5PopObj]))])

/-- C5 witness: on the concrete decoy/populated payload, extraction
collects both candidates for teamId 42 and selection picks the populated
line. -/
theorem candidate_selection_witness :
    selectBest (deepCollectTeamStats c5Payload) "42" = some (extractCompleteStats c5PopObj) :=
  candidate_selection.2.1 c5Payload "42" (extractCompleteStats c5DecoyObj)
    (extractCompleteStats c5PopObj) (Or.inl (by decide)) (by decide)

/-- Appending an input whose extraction fails leaves the aggregated
season totals unchanged. -/
theorem aggregateExtracted_append_none {gid : String} {j : Json} {d : String}
    (h : parseCompleteGameData gid j d = none) (inputs : List (String × Json × String)) :
    aggregateExtracted (inputs ++ [(gid, j, d)]) = aggregateExtracted inputs := by
  unfold aggregateExtracted aggregateGames
  rw [List.filterMap_append]
  simp [h]

/-- `parsedIds` is the identifier projection of `parsedMetas`. -/
theorem parsedIds_metas {j : Json} {hid aid : String}
    (h : parsedIds j = some (hid, aid)) :
    ∃ hm am, parsedMetas j = some (hm, am) ∧
      hid = jsStringOfOpt (pickJ hm idKeys) ∧ aid = jsStringOfOpt (pickJ am idKeys) := by
  unfold parsedIds at h
  unfold parsedMetas
  cases hf : findTeamsMeta j with
  | none => rw [hf] at h; exact absurd h (by simp)
  | some arr =>
    rw [hf] at h
    dsimp only at h ⊢
    by_cases hlen : arr.length < 2
    · rw [if_pos hlen] at h; exact absurd h (by simp)
    · rw [if_neg hlen] at h
      rw [if_neg hlen]
      simp only [Option.some.injEq, Prod.mk.injEq] at h
      exact ⟨_, _, rfl, h.1.symm, h.2.symm⟩

/-- C6: box-score extraction returns a game record only when a best stat
candidate exists for both the home and the away teamId; when either
side's selection is empty the extractor returns `null` and the game
contributes nothing to any season total. -/
theorem reject_missing_side (gid : String) (j : Json) (d : String) (hid aid : String)
    (hm : parsedIds j = some (hid, aid))
    (hmiss : selectBest (deepCollectTeamStats j) hid = none ∨
             selectBest (deepCollectTeamStats j) aid = none) :
    parseCompleteGameData gid j d = none ∧
    ∀ inputs, aggregateExtracted (inputs ++ [(gid, j, d)]) = aggregateExtracted inputs := by
  obtain ⟨hmeta, ameta, hpm, hhid, haid⟩ := parsedIds_metas hm
  have hnone : parseCompleteGameData gid j d = none := by
    unfold parseCompleteGameData
    rw [hpm]
    dsimp only
    rw [← hhid, ← haid]
    by_cases hemp : (deepCollectTeamStats j).isEmpty
    · rw [if_pos hemp]
    · rw [if_neg hemp]
      rcases hmiss with hh | ha
      · cases ha2 : selectBest (deepCollectTeamStats j) aid <;> simp [hh, ha2]
      · cases hh2 : selectBest (deepCollectTeamStats j) hid <;> simp [ha, hh2]
  exact ⟨hnone, fun inputs => aggregateExtracted_append_none hnone inputs⟩

/-- Team metadata for the C6 witness: two teams, stats present only for
the home side. -/
def c6Payload : Json :=
  Json.jobj (JsonObj.ofList
    [("teams", Json.jarr (JsonArr.ofList
      [Json.jobj (JsonObj.ofList [("teamId", Json.jstr "1"), ("isHome", Json.jbool true)]),
       Json.jobj (JsonObj.ofList [("teamId", Json.jstr "2"), ("isHome", Json.jbool false)])])),
     ("stats", Json.jarr (JsonArr.ofList
       [Json.jobj (JsonObj.ofList
         [("teamId", Json.jstr "1"), ("points", Json.jnum 55),
          ("fieldGoalsAttempted", Json.jnum 50)])]))])

/-- C6 witness: the concrete payload with stats for only one side parses
to `null` and contributes nothing when aggregated. -/
theorem reject_missing_side_witness :
    parseCompleteGameData "g6" c6Payload "2026-01-05" = none ∧
    aggregateExtracted [("g6", c6Payload, "2026-01-05")] = aggregateExtracted [] := by
  have h := reject_missing_side "g6" c6Payload "2026-01-05" "1" "2"
    (by decide) (Or.inr (by decide))
  exact ⟨h.1, by simpa using h.2 []⟩

/-- C8: merging a single game into fresh season totals gives both
participants entries for which team A's offensive effective field-goal
percentage equals team B's defensive effective field-goal percentage and
vice versa, because the aggregator copies each side's shooting numbers
into the opponent's `opp_*` fields. -/
theorem four_factor_symmetry (g : GameRec) (hne : g.home.teamId ≠ g.away.teamId) :
    ∃ tA tB,
      findTot (aggregateGames [g]) g.home.teamId = some tA ∧
      findTot (aggregateGames [g]) g.away.teamId = some tB ∧
      (calcFourFactors tA).off.efg = (calcFourFactors tB).defn.efg ∧
      (calcFourFactors tB).off.efg = (calcFourFactors tA).defn.efg := by
  have hagg : aggregateGames [g] =
      [(g.home.teamId, bumpComplete (zeroTotals g.home) g.home.stats g.away.stats),
       (g.away.teamId, bumpComplete (zeroTotals g.away) g.away.stats g.home.stats)] := by
    unfold aggregateGames mergeGameComplete mergeTeamSideComplete
    simp [findTot, setTot, hne, Ne.symm hne]
  refine ⟨bumpComplete (zeroTotals g.home) g.home.stats g.away.stats,
          bumpComplete (zeroTotals g.away) g.away.stats g.home.stats, ?_, ?_, ?_, ?_⟩
  · rw [hagg]; simp [findTot]
  · rw [hagg]; simp [findTot, hne]
  · simp [calcFourFactors, bumpComplete, zeroTotals]
  · simp [calcFourFactors, bumpComplete, zeroTotals]

/-- The synthetic two-team game of the specification's end-to-end
example: A scores 70 on 25/60 FG (5/15 3P), 15/20 FT, 10 ORB, 12 TOV;
B scores 65 on 24/58 FG (6/18 3P), 11/15 FT, 8 ORB, 14 TOV. -/
def c8Game : GameRec where
  gameId := "g8"
  date := "2026-01-06"
  home := ⟨"A", "Team A", some "acc",
    { points := 70, fgm := 25, fga := 60, tpm := 5, tpa := 15, ftm := 15, fta := 20,
      orb := 10, drb := 25, trb := 35, ast := 14, stl := 6, blk := 2, tov := 12,
      pf := 16, minutes := 200 }⟩
  away := ⟨"B", "Team B", some "sec",
    { points := 65, fgm := 24, fga := 58, tpm := 6, tpa := 18, ftm := 11, fta := 15,
      orb := 8, drb := 22, trb := 30, ast := 12, stl := 5, blk := 3, tov := 14,
      pf := 18, minutes := 200 }⟩
  isConferenceGame := false
  players := []

/-- C8 witness: the four-factor symmetry at the specification's concrete
example game. -/
theorem four_factor_symmetry_witness :
    ∃ tA tB,
      findTot (aggregateGames [c8Game]) c8Game.home.teamId = some tA ∧
      findTot (aggregateGames [c8Game]) c8Game.away.teamId = some tB ∧
      (calcFourFactors tA).off.efg = (calcFourFactors tB).defn.efg ∧
      (calcFourFactors tB).off.efg = (calcFourFactors tA).defn.efg :=
  four_factor_symmetry c8Game (by decide)

/-- `contains` agrees with membership on string lists. -/
theorem string_contains_iff (l : List String) (x : String) : l.contains x = true ↔ x ∈ l :=
  List.elem_iff

/-- Every element of the input not yet seen survives `dedupAux`. -/
theorem mem_dedupAux : ∀ (l seen : List String) (x : String),
    x ∈ l → x ∉ seen → x ∈ dedupAux seen l := by
  intro l
  induction l with
  | nil => intro seen x hx _; simp at hx
  | cons y ys ih =>
    intro seen x hx hseen
    by_cases hxy : x = y
    · subst hxy
      have hc : seen.contains x = false := by
        cases hcc : seen.contains x with
        | false => rfl
        | true => exact absurd ((string_contains_iff _ _).mp hcc) hseen
      simp only [dedupAux, hc]
      exact List.mem_cons_self _ _
    · have hxys : x ∈ ys := by
        rcases List.mem_cons.mp hx with h | h
        · exact absurd h hxy
        · exact h
      cases hcc : seen.contains y with
      | true =>
        simp only [dedupAux, hcc]
        exact ih seen x hxys hseen
      | false =>
        simp only [dedupAux, hcc]
        refine List.mem_cons.mpr (Or.inr (ih (y :: seen) x hxys ?_))
        intro hmem
        rcases List.mem_cons.mp hmem with h' | h'
        · exact hxy h'
        · exact hseen h'

/-- Every element of the input is in its deduplication. -/
theorem mem_listDedup {l : List String} {x : String} (h : x ∈ l) : x ∈ listDedup l :=
  mem_dedupAux l [] x h (by simp)

/-- In every branch of the incremental run, the new-game list is the
discovered list minus the cached ids. -/
theorem runIncremental_newIds (st : IncState) (disc : List String)
    (fp : String → Option GameRec) :
    (runIncremental st disc fp).newIds = disc.filter (fun gid => !(st.cache.contains gid)) := by
  unfold runIncremental
  dsimp only
  split
  · rfl
  · split <;> rfl

/-- Every incremental run either leaves the state untouched without
committing, or commits a state whose cache is the deduplicated union of
the old cache and the processed ids. -/
theorem runIncremental_cases (st : IncState) (disc : List String)
    (fp : String → Option GameRec) :
    ((runIncremental st disc fp).st = st ∧ (runIncremental st disc fp).wrote = false) ∨
    (runIncremental st disc fp).st.cache =
      listDedup (st.cache ++ (runIncremental st disc fp).processed) := by
  unfold runIncremental
  dsimp only
  split
  · exact Or.inl ⟨rfl, rfl⟩
  · split
    · exact Or.inl ⟨rfl, rfl⟩
    · exact Or.inr rfl

/-- A committed incremental run extends the cache with exactly the
processed ids (first-occurrence deduplicated union). -/
theorem runIncremental_wrote_cache (st : IncState) (disc : List String)
    (fp : String → Option GameRec) (h : (runIncremental st disc fp).wrote = true) :
    (runIncremental st disc fp).st.cache =
      listDedup (st.cache ++ (runIncremental st disc fp).processed) := by
  rcases runIncremental_cases st disc fp with ⟨_, hw⟩ | hc
  · rw [hw] at h
    exact absurd h (by simp)
  · exact hc

/-- A run whose discovered ids are all cached exits with nothing
processed and the persisted state untouched. -/
theorem runIncremental_of_no_new (st : IncState) (disc : List String)
    (fp : String → Option GameRec)
    (h : disc.filter (fun gid => !(st.cache.contains gid)) = []) :
    runIncremental st disc fp = { newIds := [], processed := [], st := st, wrote := false } := by
  unfold runIncremental
  dsimp only
  rw [h]
  rfl

/-- C1: a gameId already present in the cache is filtered out of the new
work before any boxscore fetch or aggregation; and if a run processed
every discovered game and committed, then re-running the pipeline over
the same date window with the committed state processes zero new games
and leaves the persisted TeamSeasonTotals and RatingsRows (the whole
state) identical. -/
theorem incremental_idempotent :
    (∀ (st : IncState) (disc : List String) (fp : String → Option GameRec) (gid : String),
      gid ∈ st.cache → gid ∉ (runIncremental st disc fp).newIds) ∧
    (∀ (st : IncState) (disc : List String) (fp : String → Option GameRec),
      (runIncremental st disc fp).processed = (runIncremental st disc fp).newIds →
      (runIncremental st disc fp).wrote = true →
      runIncremental (runIncremental st disc fp).st disc fp =
        { newIds := [], processed := [],
          st := (runIncremental st disc fp).st, wrote := false }) := by
  constructor
  · intro st disc fp gid hgid hmem
    rw [runIncremental_newIds] at hmem
    have h2 := (List.mem_filter.mp hmem).2
    rw [Bool.not_eq_true'] at h2
    rw [(string_contains_iff _ _).mpr hgid] at h2
    exact Bool.true_eq_false.mp h2
  · intro st disc fp hproc hwrote
    have hcache := runIncremental_wrote_cache st disc fp hwrote
    have hsub : ∀ gid ∈ disc, gid ∈ (runIncremental st disc fp).st.cache := by
      intro gid hgid
      rw [hcache]
      by_cases hc : gid ∈ st.cache
      · exact mem_listDedup (List.mem_append.mpr (Or.inl hc))
      · have hmemNew : gid ∈ (runIncremental st disc fp).newIds := by
          rw [runIncremental_newIds]
          refine List.mem_filter.mpr ⟨hgid, ?_⟩
          rw [Bool.not_eq_true']
          cases hcc : st.cache.contains gid with
          | false => rfl
          | true => exact absurd ((string_contains_iff _ _).mp hcc) hc
        have hp : gid ∈ (runIncremental st disc fp).processed := by
          rw [hproc]; exact hmemNew
        exact mem_listDedup (List.mem_append.mpr (Or.inr hp))
    have hfilt : disc.filter
        (fun gid => !((runIncremental st disc fp).st.cache.contains gid)) = [] := by
      apply List.eq_nil_iff_forall_not_mem.mpr
      intro x hx
      obtain ⟨hxd, hxc⟩ := List.mem_filter.mp hx
      rw [Bool.not_eq_true'] at hxc
      rw [(string_contains_iff _ _).mpr (hsub x hxd)] at hxc
      exact Bool.true_eq_false.mp hxc
    exact runIncremental_of_no_new _ _ _ hfilt

/-- A witness season-total entry: team `i` with one win and a score that
decreases with `i` (so the efficiency sort stays cheap to evaluate). -/
def demoTeam (i : Nat) : TeamTotals where
  teamId := "t" ++ toString i
  teamName := "T"
  conference := some "acc"
  games := 1
  wins := 1
  losses := 0
  points := ((300 - i : Nat) : Int)
  opp_points := 0
  fgm := 0
  fga := 1
  tpm := 0
  tpa := 0
  ftm := 0
  fta := 0
  orb := 0
  drb := 0
  trb := 0
  ast := 0
  stl := 0
  blk := 0
  tov := 0
  pf := 0
  opp_fgm := 0
  opp_fga := 0
  opp_tpm := 0
  opp_tpa := 0
  opp_ftm := 0
  opp_fta := 0
  opp_orb := 0
  opp_drb := 0
  opp_trb := 0
  opp_ast := 0
  opp_stl := 0
  opp_blk := 0
  opp_tov := 0
  opp_pf := 0

/-- 300 D1 teams of prior state (enough to pass the run guard). -/
def demoTotals : TotalsMap :=
  (List.range 300).map (fun i => ("t" ++ toString i, demoTeam i))

/-- Prior persisted state with an empty game cache. -/
def demoSt : IncState := { cache := [], totals := demoTotals, ratings := [] }

/-- The one newly discovered game, between two known teams. -/
def demoGame : GameRec where
  gameId := "g1"
  date := "2026-02-01"
  home := ⟨"t0", "T", some "acc", { zeroStats with points := 60 }⟩
  away := ⟨"t1", "T", some "acc", { zeroStats with points := 55 }⟩
  isConferenceGame := false
  players := []

/-- The fetch-and-parse oracle for the witness run. -/
def demoFp : String → Option GameRec :=
  fun gid => if gid = "g1" then some demoGame else none

set_option maxRecDepth 100000 in
/-- C1 witness: after a committed first run over the concrete demo state
that processed its whole discovered window, the second run over the same
window processes zero new games and returns the state unchanged. -/
theorem incremental_idempotent_witness :
    runIncremental (runIncremental demoSt ["g1"] demoFp).st ["g1"] demoFp =
      { newIds := [], processed := [],
        st := (runIncremental demoSt ["g1"] demoFp).st, wrote := false } :=
  incremental_idempotent.2 demoSt ["g1"] demoFp (by with_unfolding_all decide)
    (by with_unfolding_all decide)

/-- A cached game references team `X` as a division side when `X` plays
in it with a conference in the known D2 set. -/
def referencesD2 (X : String) (g : GameRec) : Bool :=
  (g.home.teamId = X && isD2Conference g.home.conference) ||
  (g.away.teamId = X && isD2Conference g.away.conference)

/-- The games count recorded for a team, zero when no entry exists. -/
def gamesOf (m : TotalsMap) (X : String) : Int :=
  match findTot m X with
  | some t => t.games
  | none => 0

/-- Lookup after setting the same key. -/
theorem findTot_setTot_self (m : TotalsMap) (k : String) (t : TeamTotals) :
    findTot (setTot m k t) k = some t := by
  induction m with
  | nil => simp [setTot, findTot]
  | cons p m ih =>
    obtain ⟨k', t'⟩ := p
    by_cases hk : k' = k
    · subst hk
      simp [setTot, findTot]
    · simp [setTot, findTot, hk, ih]

/-- Lookup after setting a different key. -/
theorem findTot_setTot_ne (m : TotalsMap) (k : String) (t : TeamTotals) (k' : String)
    (h : k' ≠ k) : findTot (setTot m k t) k' = findTot m k' := by
  induction m with
  | nil => simp [setTot, findTot, h, Ne.symm h]
  | cons p m ih =>
    obtain ⟨k0, t0⟩ := p
    by_cases hk : k0 = k
    · subst hk
      simp [setTot, findTot, Ne.symm h]
    · by_cases hk' : k0 = k'
      · subst hk'
        simp [setTot, findTot, hk]
      · simp [setTot, findTot, hk, hk', ih]

/-- One D2 side merge adds one game to `X` exactly when the side is `X`
with a D2 conference. -/
theorem gamesOf_mergeTeamSideD2 (m : TotalsMap) (side : SideRec) (opp : Stats) (X : String) :
    gamesOf (mergeTeamSideD2 m side opp) X =
      gamesOf m X +
        (if side.teamId = X ∧ isD2Conference side.conference = true then 1 else 0) := by
  unfold mergeTeamSideD2
  by_cases hd2 : isD2Conference side.conference = true
  · rw [if_pos hd2]
    by_cases hX : side.teamId = X
    · subst hX
      rw [if_pos ⟨rfl, hd2⟩]
      unfold gamesOf
      rw [findTot_setTot_self]
      cases heq : findTot m side.teamId with
      | none => simp [heq, bumpComplete, zeroTotals]
      | some t => simp [heq, bumpComplete]
    · rw [if_neg (fun hc => hX hc.1)]
      unfold gamesOf
      rw [findTot_setTot_ne _ _ _ _ (fun hc => hX hc.symm)]
      ring
  · rw [if_neg (by simpa using hd2), if_neg (fun hc => hd2 hc.2)]
    ring

/-- One game merge adds one game to `X` exactly when the game references
`X` as a D2 side (the sides are distinct teams). -/
theorem gamesOf_mergeGameD2 (m : TotalsMap) (g : GameRec) (X : String)
    (hne : g.home.teamId ≠ g.away.teamId) :
    gamesOf (mergeGameD2 m g) X = gamesOf m X + (if referencesD2 X g then 1 else 0) := by
  unfold mergeGameD2
  rw [gamesOf_mergeTeamSideD2, gamesOf_mergeTeamSideD2]
  have hr : referencesD2 X g = true ↔
      (g.home.teamId = X ∧ isD2Conference g.home.conference = true) ∨
      (g.away.teamId = X ∧ isD2Conference g.away.conference = true) := by
    simp [referencesD2]
  by_cases hh : g.home.teamId = X ∧ isD2Conference g.home.conference = true
  · have hna : ¬ (g.away.teamId = X ∧ isD2Conference g.away.conference = true) := by
      intro ha
      exact hne (hh.1.trans ha.1.symm)
    rw [if_pos hh, if_neg hna, if_pos (hr.mpr (Or.inl hh))]
    ring
  · by_cases ha : g.away.teamId = X ∧ isD2Conference g.away.conference = true
    · rw [if_neg hh, if_pos ha, if_pos (hr.mpr (Or.inr ha))]
      ring
    · rw [if_neg hh, if_neg ha, if_neg (fun hc => (hr.mp hc).elim hh ha)]
      ring

/-- Folding games over the store adds exactly the count of games
referencing `X` as a D2 side. -/
theorem gamesOf_foldl (gs : List GameRec) (X : String)
    (hne : ∀ g ∈ gs, g.home.teamId ≠ g.away.teamId) :
    ∀ m : TotalsMap, gamesOf (gs.foldl mergeGameD2 m) X =
      gamesOf m X + ((gs.filter (referencesD2 X)).length : Int) := by
  induction gs with
  | nil => intro m; simp
  | cons g gs ih =>
    intro m
    rw [List.foldl_cons]
    rw [ih (fun x hx => hne x (List.mem_cons_of_mem _ hx))]
    rw [gamesOf_mergeGameD2 _ _ _ (hne g (List.mem_cons_self _ _))]
    by_cases hg : referencesD2 X g
    · simp [List.filter_cons, hg]
      ring
    · simp [List.filter_cons, hg]

/-- The first counterexample game: X (conference gliac) hosts Y. -/
def gX1 : GameRec where
  gameId := "g1"
  date := "d"
  home := ⟨"X", "X", some "gliac", { zeroStats with points := 70, fga := 50 }⟩
  away := ⟨"Y", "Y", some "gliac", { zeroStats with points := 60, fga := 48 }⟩
  isConferenceGame := true
  players := []

/-- The second counterexample game: the scoreboard carried no conference
metadata for X, so X's side conference is absent; the game is still kept
and cached because the opponent Y is a known D2 team. -/
def gX2 : GameRec where
  gameId := "g2"
  date := "d"
  home := ⟨"X", "X", none, { zeroStats with points := 70, fga := 50 }⟩
  away := ⟨"Y", "Y", some "gliac", { zeroStats with points := 60, fga := 48 }⟩
  isConferenceGame := false
  players := []

/-- C7 counterexample: two kept games both reference team X in the
cache, but in the second game X's conference metadata is missing (the
game is kept because the opponent is D2), so X's side is skipped by the
aggregation and `TeamSeasonTotals.games` for X is 1 while the cache holds
2 distinct gameIds whose records list X as home or away. -/
theorem games_cache_invariant_cex :
    (cacheIdsOf [gX1, gX2]).Nodup ∧
    (([gX1, gX2] : List GameRec).filter
      (fun g => g.home.teamId = "X" || g.away.teamId = "X")).length = 2 ∧
    (findTot (aggregateD2 [gX1, gX2]) "X").map TeamTotals.games = some 1 := by
  refine ⟨by decide, by decide, by with_unfolding_all decide⟩

/-- C7 as amended: for every run over games with distinct gameIds and
distinct sides, every TeamSeasonTotals entry X counts exactly the
distinct cached gameIds whose record lists X as home or away *with a
conference in the division's D2 set* (opponents outside the set still
count for X; only X's own missing/non-D2 conference metadata excludes a
game from X's count). -/
theorem games_cache_invariant_amended (gs : List GameRec)
    (hnodup : (cacheIdsOf gs).Nodup)
    (hne : ∀ g ∈ gs, g.home.teamId ≠ g.away.teamId) :
    ∀ X t, findTot (aggregateD2 gs) X = some t →
      t.games = ((gs.filter (referencesD2 X)).length : Int) ∧
      ((gs.filter (referencesD2 X)).map (fun g => g.gameId)).Nodup := by
  intro X t ht
  constructor
  · have h := gamesOf_foldl gs X hne []
    unfold aggregateD2 at ht
    unfold gamesOf at h
    rw [ht] at h
    simpa [findTot] using h
  · have hsub : List.Sublist ((gs.filter (referencesD2 X)).map (fun g => g.gameId))
        (gs.map (fun g => g.gameId)) :=
      List.Sublist.map _ (List.filter_sublist gs)
    exact List.Nodup.sublist hsub hnodup

/-- Witness game one: X (gliac) hosts Y (glvc). -/
def gW1 : GameRec where
  gameId := "w1"
  date := "d"
  home := ⟨"X", "X", some "gliac", { zeroStats with points := 70, fga := 50 }⟩
  away := ⟨"Y", "Y", some "glvc", { zeroStats with points := 60, fga := 48 }⟩
  isConferenceGame := false
  players := []

/-- Witness game two: Z (cacc) hosts X (gliac). -/
def gW2 : GameRec where
  gameId := "w2"
  date := "d"
  home := ⟨"Z", "Z", some "cacc", { zeroStats with points := 80, fga := 55 }⟩
  away := ⟨"X", "X", some "gliac", { zeroStats with points := 75, fga := 52 }⟩
  isConferenceGame := false
  players := []

/-- The aggregated entry for X over the two witness games. -/
def c7WitnessTot : TeamTotals :=
  (findTot (aggregateD2 [gW1, gW2]) "X").getD (zeroTotals ⟨"X", "X", none, zeroStats⟩)

/-- C7 amended witness: over the two concrete witness games, X's games
field equals the number of distinct cached gameIds referencing X as a D2
side. -/
theorem games_cache_invariant_witness :
    c7WitnessTot.games = ((([gW1, gW2] : List GameRec).filter (referencesD2 "X")).length : Int) ∧
    ((([gW1, gW2] : List GameRec).filter (referencesD2 "X")).map (fun g => g.gameId)).Nodup :=
  games_cache_invariant_amended [gW1, gW2] (by decide) (by decide) "X" c7WitnessTot
    (by with_unfolding_all decide)

/-- A realistic team season line for the ORtg computations. -/
def cexTeam : TeamLine where
  games := 30
  fga := 1800
  fgm := 800
  tpm := 200
  tpa := 600
  orb := 350
  tov := 400
  fta := 550
  ftm := 400
  ast := 500
  points := 2200
  trb := 1200
  opp_fga := 1750
  opp_tpa := 560
  opp_tpm := 180
  opp_orb := 300
  opp_tov := 380
  opp_fta := 500
  opp_ftm := 350
  opp_points := 2100
  opp_trb := 1150

/-- A player with minutes but no field-goal and no free-throw attempts. -/
def cexPlayer : PlayerLine where
  minutes := 100
  fgm := 0
  fga := 0
  tpm := 0
  tpa := 0
  ftm := 0
  fta := 0
  orb := 0
  drb := 0
  ast := 0
  stl := 0
  blk := 0
  tov := 0
  pf := 0
  points := 0

/-- C3 counterexample: in the women's D1 players-page ORtg (the claim's
first cited source), the free-throw sub-term of a player with zero
free-throw attempts evaluates to NaN (`0/0` is unguarded), not to zero;
and for this zero-FGA/zero-FTA player the final rating evaluates to the
numeric 0 (rendered unconditionally with `toFixed(1)` as `0.0`), not to
an unavailable marker. -/
theorem ortg_guard_cex :
    WD1Oliver.ftPart cexPlayer = JNum.nan ∧
    ¬ WD1Oliver.ftPart cexPlayer = jq 0 ∧
    ortgPlayersPage cexTeam cexPlayer = jq 0 := by
  refine ⟨by with_unfolding_all decide, by with_unfolding_all decide,
    by with_unfolding_all decide⟩

/-- A JavaScript number that is an exact finite rational. -/
def IsFin (x : JNum) : Prop := ∃ q, x = JNum.fin q

/-- Rational constants are finite. -/
theorem isFin_jq (q : Rat) : IsFin (jq q) := ⟨q, rfl⟩

/-- Addition preserves finiteness. -/
theorem IsFin.add {a b : JNum} (ha : IsFin a) (hb : IsFin b) : IsFin (a + b) := by
  obtain ⟨qa, rfl⟩ := ha
  obtain ⟨qb, rfl⟩ := hb
  exact ⟨qa + qb, rfl⟩

/-- Subtraction preserves finiteness. -/
theorem IsFin.sub {a b : JNum} (ha : IsFin a) (hb : IsFin b) : IsFin (a - b) := by
  obtain ⟨qa, rfl⟩ := ha
  obtain ⟨qb, rfl⟩ := hb
  exact ⟨qa + -qb, rfl⟩

/-- Multiplication preserves finiteness. -/
theorem IsFin.mul {a b : JNum} (ha : IsFin a) (hb : IsFin b) : IsFin (a * b) := by
  obtain ⟨qa, rfl⟩ := ha
  obtain ⟨qb, rfl⟩ := hb
  exact ⟨qa * qb, rfl⟩

/-- Squaring preserves finiteness. -/
theorem IsFin.sq {a : JNum} (ha : IsFin a) : IsFin (jsq a) := by
  obtain ⟨qa, rfl⟩ := ha
  exact ⟨qa * qa, rfl⟩

/-- Division by a nonzero finite number preserves finiteness. -/
theorem IsFin.div {a b : JNum} (ha : IsFin a) (hb : ∃ q, b = JNum.fin q ∧ q ≠ 0) :
    IsFin (a / b) := by
  obtain ⟨qa, rfl⟩ := ha
  obtain ⟨qb, rfl, hq⟩ := hb
  show IsFin (jdiv (JNum.fin qa) (JNum.fin qb))
  simp only [jdiv, if_neg hq]
  exact ⟨qa / qb, rfl⟩

/-- `Math.max(1, x)` of a finite number is finite and nonzero. -/
theorem jmax1_isFin {x : JNum} (h : IsFin x) : ∃ q, jmax1 x = JNum.fin q ∧ q ≠ 0 := by
  obtain ⟨qx, rfl⟩ := h
  refine ⟨max 1 qx, rfl, ?_⟩
  intro hc
  have h1 : (1 : Rat) ≤ max 1 qx := le_max_left _ _
  rw [hc] at h1
  exact absurd h1 (by norm_num)

namespace MD2Team

/-- `teamMinutes` is finite. -/
theorem isFin_teamMinutes (team : TeamLine) : IsFin (teamMinutes team) :=
  (isFin_jq _).mul (isFin_jq _)

/-- `opp_drb` is finite. -/
theorem isFin_oppDrb (team : TeamLine) : IsFin (oppDrb team) :=
  (isFin_jq _).sub (isFin_jq _)

/-- `teamFTPct` is finite (the ratio is guarded). -/
theorem isFin_teamFTPct (team : TeamLine) : IsFin (teamFTPct team) := by
  by_cases h : team.fta > 0
  · simp only [teamFTPct, if_pos h]
    exact (isFin_jq _).div ⟨team.fta, rfl, ne_of_gt h⟩
  · simp only [teamFTPct, if_neg h]
    exact isFin_jq 0

/-- `playerPoss` is finite. -/
theorem isFin_playerPoss (p : PlayerLine) : IsFin (playerPoss p) :=
  ((isFin_jq _).add ((isFin_jq _).mul (isFin_jq _))).add (isFin_jq _)

/-- `qAST` is finite (minutes guard and `Math.max(1, ...)`). -/
theorem isFin_qAST (team : TeamLine) (p : PlayerLine) : IsFin (qAST team p) := by
  by_cases h : p.minutes > 0
  · simp only [qAST, if_pos h]
    exact ((((isFin_jq _).div ⟨p.minutes, rfl, ne_of_gt h⟩).mul
      ((isFin_teamMinutes team).div ⟨5, rfl, by norm_num⟩)).div
      (jmax1_isFin ((isFin_jq _).sub (isFin_jq _)))).mul (isFin_jq _)
  · simp only [qAST, if_neg h]
    exact isFin_jq 0

/-- `fgPart` is finite. -/
theorem isFin_fgPart (team : TeamLine) (p : PlayerLine) : IsFin (fgPart team p) := by
  by_cases h : p.fgm > 0
  · simp only [fgPart, if_pos h]
    exact (isFin_jq _).mul ((isFin_jq 1).sub (((isFin_jq _).mul
      (((isFin_jq _).sub (isFin_jq _)).div
        (jmax1_isFin ((isFin_jq _).mul (isFin_jq _))))).mul (isFin_qAST team p)))
  · simp only [fgPart, if_neg h]
    exact isFin_jq 0

/-- `ftPart` is finite (the free-throw ratio is guarded). -/
theorem isFin_ftPart (p : PlayerLine) : IsFin (ftPart p) := by
  by_cases h : p.fta > 0
  · simp only [ftPart, if_pos h]
    exact (((isFin_jq 1).sub (((isFin_jq 1).sub
      ((isFin_jq _).div ⟨p.fta, rfl, ne_of_gt h⟩)).sq)).mul (isFin_jq _)).mul (isFin_jq _)
  · simp only [ftPart, if_neg h]
    exact (((isFin_jq 1).sub (((isFin_jq 1).sub (isFin_jq 0)).sq)).mul
      (isFin_jq _)).mul (isFin_jq _)

/-- `teamScoringPoss` is finite. -/
theorem isFin_teamScoringPoss (team : TeamLine) : IsFin (teamScoringPoss team) := by
  unfold teamScoringPoss
  exact ((isFin_jq _).mul ((isFin_jq 1).sub (((isFin_jq _).mul
      (((isFin_jq _).sub (isFin_jq _)).div
        (jmax1_isFin ((isFin_jq _).mul (isFin_jq _))))).mul (isFin_jq 0)))).add
    ((((isFin_jq 1).sub (((isFin_jq 1).sub (isFin_teamFTPct team)).sq)).mul
      (isFin_jq _)).mul (isFin_jq _))

/-- `orbWeight` is finite. -/
theorem isFin_orbWeight (team : TeamLine) (p : PlayerLine) : IsFin (orbWeight team p) := by
  unfold orbWeight
  exact ((isFin_jq 1).sub (((isFin_jq _).mul
    ((isFin_fgPart team p).add (isFin_ftPart p))).div
      (jmax1_isFin (isFin_playerPoss p)))).mul (isFin_jq _)

/-- `orbPart` is finite. -/
theorem isFin_orbPart (team : TeamLine) (p : PlayerLine) : IsFin (orbPart team p) :=
  (isFin_jq _).mul (isFin_orbWeight team p)

/-- `scoringPoss` is finite. -/
theorem isFin_scoringPoss (team : TeamLine) (p : PlayerLine) : IsFin (scoringPoss team p) :=
  ((isFin_fgPart team p).add (isFin_ftPart p)).add (isFin_orbPart team p)

/-- `ppFG` is finite. -/
theorem isFin_ppFG (team : TeamLine) (p : PlayerLine) : IsFin (ppFG team p) := by
  by_cases h : p.fgm > 0
  · simp only [ppFG, if_pos h]
    exact ((isFin_jq 2).add ((isFin_jq _).div
      (jmax1_isFin (isFin_jq _)))).mul (isFin_fgPart team p)
  · simp only [ppFG, if_neg h]
    exact isFin_jq 0

/-- `ppAST` is finite. -/
theorem isFin_ppAST (team : TeamLine) (p : PlayerLine) : IsFin (ppAST team p) := by
  by_cases h : p.ast > 0
  · simp only [ppAST, if_pos h]
    exact (((((isFin_jq _).mul (isFin_jq _)).add (isFin_jq _)).div
      (jmax1_isFin ((isFin_jq _).mul (isFin_jq _)))).mul (isFin_jq _)).mul (isFin_jq _)
  · simp only [ppAST, if_neg h]
    exact isFin_jq 0

/-- `ppORB` is finite. -/
theorem isFin_ppORB (team : TeamLine) (p : PlayerLine) : IsFin (ppORB team p) :=
  ((isFin_jq _).mul (isFin_orbWeight team p)).mul
    ((isFin_jq _).div (jmax1_isFin (isFin_teamScoringPoss team)))

/-- `pointsProduced` is finite. -/
theorem isFin_pointsProduced (team : TeamLine) (p : PlayerLine) :
    IsFin (pointsProduced team p) :=
  (((isFin_ppFG team p).add (isFin_ppAST team p)).add (isFin_jq _)).add (isFin_ppORB team p)

/-- `fgxPoss` is finite. -/
theorem isFin_fgxPoss (team : TeamLine) (p : PlayerLine) : IsFin (fgxPoss team p) :=
  ((isFin_jq _).sub (isFin_jq _)).mul ((isFin_jq 1).sub ((isFin_jq _).mul
    ((isFin_jq _).div (jmax1_isFin ((isFin_jq _).add (isFin_oppDrb team))))))

/-- `ftxPoss` is finite. -/
theorem isFin_ftxPoss (p : PlayerLine) : IsFin (ftxPoss p) := by
  by_cases h : p.fta > 0
  · simp only [ftxPoss, if_pos h]
    exact ((((isFin_jq 1).sub ((isFin_jq _).div ⟨p.fta, rfl, ne_of_gt h⟩)).sq).mul
      (isFin_jq _)).mul (isFin_jq _)
  · simp only [ftxPoss, if_neg h]
    exact ((((isFin_jq 1).sub (isFin_jq 0)).sq).mul (isFin_jq _)).mul (isFin_jq _)

/-- `indivPoss` is finite. -/
theorem isFin_indivPoss (team : TeamLine) (p : PlayerLine) : IsFin (indivPoss team p) :=
  (((isFin_fgxPoss team p).add (isFin_ftxPoss p)).add (isFin_jq _)).add
    (isFin_scoringPoss team p)

/-- The men's D2 individual offensive rating is a finite number on every
input: every denominator in the chain is guarded. -/
theorem isFin_ortg (team : TeamLine) (p : PlayerLine) : IsFin (ortg team p) := by
  by_cases hgt : jgt (indivPoss team p) (jq 0) = true
  · simp only [ortg, if_pos hgt]
    obtain ⟨qi, hqi⟩ := isFin_indivPoss team p
    rw [hqi] at hgt
    have hqpos : 0 < qi := by simpa [jgt, jq] using hgt
    exact ((isFin_pointsProduced team p).div ⟨qi, hqi, ne_of_gt hqpos⟩).mul (isFin_jq _)
  · simp only [ortg, if_neg hgt]
    exact isFin_jq 0

end MD2Team

/-- C3 as amended: in the men's D2 individual ORtg every denominator is
guarded (`Math.max(1, ...)` or a positivity conditional) so the rating is
a finite number — never NaN or Infinity — for every input; the women's
D1 players-page chain is unguarded (see the counterexample); and a
player with no field-goal attempts, no free-throw attempts or no minutes
gets rating 0, which only the women's D1 team page renders as the
unavailable marker (every other page prints the numeric value). -/
theorem ortg_guard_amended :
    (∀ (team : TeamLine) (p : PlayerLine), ∃ q, MD2Team.ortg team p = JNum.fin q) ∧
    (∀ (team : TeamLine) (p : PlayerLine),
      ¬(p.fga > 0 ∧ p.fta > 0 ∧ p.minutes > 0) →
      ortgTeamPage team p = jq 0 ∧ ortgTeamPageShown (ortgTeamPage team p) = false) := by
  constructor
  · intro team p
    exact MD2Team.isFin_ortg team p
  · intro team p h
    have h0 : ortgTeamPage team p = jq 0 := by
      simp only [ortgTeamPage, if_neg h]
    refine ⟨h0, ?_⟩
    rw [h0]
    simp [ortgTeamPageShown, jgt, jq]

/-- C3 amended witness: the concrete zero-attempt player is suppressed as
unavailable by the women's D1 team page, and the men's D2 rating for the
same input is a finite number. -/
theorem ortg_guard_amended_witness :
    ¬(cexPlayer.fga > 0 ∧ cexPlayer.fta > 0 ∧ cexPlayer.minutes > 0) ∧
    ortgTeamPage cexTeam cexPlayer = jq 0 ∧
    (∃ q, MD2Team.ortg cexTeam cexPlayer = JNum.fin q) := by
  refine ⟨by with_unfolding_all decide,
    (ortg_guard_amended.2 cexTeam cexPlayer (by with_unfolding_all decide)).1,
    ortg_guard_amended.1 cexTeam cexPlayer⟩
